import Mathlib

/-!
Shallow embedding of the mule-gb cartridge decoder (src/lib.rs and
src/reader.rs) and proofs about it.

Bytes are modelled as `Nat` (values in `0..256` when they come from a real
buffer).  Decoded text is modelled as a list of Unicode scalar values
(`List Nat`).  The two failure channels of the Rust code are collected into a
single error type: `Err.fault` stands for an out-of-bounds slice/index panic
inside `DataReader`, `Err.msg s` stands for the `Err(String)` decode errors
of the cartridge parser.  Every `mut` reader in the Rust code becomes
explicit state passing: an operation that advances the cursor returns the
new `DataReader`.
-/

namespace GB

/-- The two failure channels of the Rust code: `fault` is an out-of-bounds
panic in `reader.rs`, `msg` is a `Result::Err(String)` from `lib.rs`. -/
inductive Err where
  | fault
  | msg (s : String)
deriving DecidableEq

/-- `DataReader` from src/reader.rs: a borrowed byte buffer plus a cursor. -/
structure DataReader where
  data : List Nat
  offset : Nat
deriving DecidableEq

/-- `DataReader::new`. -/
def DataReader.new (data : List Nat) : DataReader := ⟨data, 0⟩

/-- `DataReader::new_with_offset`. -/
def DataReader.new_with_offset (data : List Nat) (offset : Nat) : DataReader :=
  ⟨data, offset⟩

/-- `DataReader::skip`: advances the cursor with no bounds check. -/
def DataReader.skip (r : DataReader) (bytes : Nat) : DataReader :=
  ⟨r.data, r.offset + bytes⟩

/-- `DataReader::offset`. -/
def DataReader.offset_of (r : DataReader) : Nat := r.offset

/-- `DataReader::read_u8`: `self.data[self.offset]`, then `offset += 1`.
Indexing out of bounds is the panic channel. -/
def read_u8 (r : DataReader) : Except Err (Nat × DataReader) :=
  match r.data[r.offset]? with
  | some u => .ok (u, ⟨r.data, r.offset + 1⟩)
  | none => .error .fault

/-- `DataReader::read_u8_at`: random-access read, does not move the cursor. -/
def read_u8_at (r : DataReader) (offset : Nat) : Except Err Nat :=
  match r.data[offset]? with
  | some u => .ok u
  | none => .error .fault

/-- Little-endian value of a byte list (first byte least significant),
as computed by `uN::from_le_bytes`. -/
def leVal : List Nat → Nat
  | [] => 0
  | b :: rest => b + 0x100 * leVal rest

/-- Common shape of the `read_uN` methods: slice `size` bytes at the cursor
(panicking when the slice leaves the buffer), take their little-endian value,
advance the cursor by `size`. -/
def read_le (r : DataReader) (size : Nat) : Except Err (Nat × DataReader) :=
  if r.offset + size ≤ r.data.length then
    .ok (leVal ((r.data.drop r.offset).take size), r.skip size)
  else
    .error .fault

/-- `DataReader::read_u16`. -/
def read_u16 (r : DataReader) : Except Err (Nat × DataReader) := read_le r 2

/-- `DataReader::read_u32`. -/
def read_u32 (r : DataReader) : Except Err (Nat × DataReader) := read_le r 4

/-- `DataReader::read_u64`. -/
def read_u64 (r : DataReader) : Except Err (Nat × DataReader) := read_le r 8

/-- Two's-complement reinterpretation of a `w`-bit unsigned value. -/
def toSigned (w v : Nat) : Int :=
  if v < 2 ^ (w - 1) then (v : Int) else (v : Int) - 2 ^ w

/-- `DataReader::read_i16`. -/
def read_i16 (r : DataReader) : Except Err (Int × DataReader) :=
  (read_le r 2).map (fun p => (toSigned 16 p.1, p.2))

/-- `DataReader::read_i32`. -/
def read_i32 (r : DataReader) : Except Err (Int × DataReader) :=
  (read_le r 4).map (fun p => (toSigned 32 p.1, p.2))

/-- `DataReader::read_bool`: reads a `u16`, result is `u != 0`. -/
def read_bool (r : DataReader) : Except Err (Bool × DataReader) :=
  (read_u16 r).map (fun p => (decide (p.1 ≠ 0), p.2))

/-- Whether a byte is a UTF-8 continuation byte (`0x80..=0xBF`). -/
def isCont (b : Nat) : Bool := 0x80 ≤ b && b ≤ 0xBF

/-- Lower bound for the first continuation byte of a 3-byte sequence. -/
def lo3 (b : Nat) : Nat := if b = 0xE0 then 0xA0 else 0x80

/-- Upper bound for the first continuation byte of a 3-byte sequence. -/
def hi3 (b : Nat) : Nat := if b = 0xED then 0x9F else 0xBF

/-- Lower bound for the first continuation byte of a 4-byte sequence. -/
def lo4 (b : Nat) : Nat := if b = 0xF0 then 0x90 else 0x80

/-- Upper bound for the first continuation byte of a 4-byte sequence. -/
def hi4 (b : Nat) : Nat := if b = 0xF4 then 0x8F else 0xBF

/-- `String::from_utf8_lossy`: UTF-8 decoding with U+FFFD replacement of
maximal invalid subparts, producing Unicode scalar values. -/
def utf8Lossy : List Nat → List Nat
  | [] => []
  | b :: rest =>
    if b ≤ 0x7F then
      b :: utf8Lossy rest
    else if b < 0xC2 then
      0xFFFD :: utf8Lossy rest
    else if b ≤ 0xDF then
      match rest with
      | [] => [0xFFFD]
      | c1 :: rest1 =>
        if isCont c1 then
          ((b - 0xC0) * 0x40 + (c1 - 0x80)) :: utf8Lossy rest1
        else
          0xFFFD :: utf8Lossy (c1 :: rest1)
    else if b ≤ 0xEF then
      match rest with
      | [] => [0xFFFD]
      | c1 :: rest1 =>
        if lo3 b ≤ c1 && c1 ≤ hi3 b then
          match rest1 with
          | [] => [0xFFFD, 0xFFFD]
          | c2 :: rest2 =>
            if isCont c2 then
              ((b - 0xE0) * 0x1000 + (c1 - 0x80) * 0x40 + (c2 - 0x80)) ::
                utf8Lossy rest2
            else
              0xFFFD :: utf8Lossy (c2 :: rest2)
        else
          0xFFFD :: utf8Lossy (c1 :: rest1)
    else if b ≤ 0xF4 then
      match rest with
      | [] => [0xFFFD]
      | c1 :: rest1 =>
        if lo4 b ≤ c1 && c1 ≤ hi4 b then
          match rest1 with
          | [] => [0xFFFD, 0xFFFD]
          | c2 :: rest2 =>
            if isCont c2 then
              match rest2 with
              | [] => [0xFFFD, 0xFFFD, 0xFFFD]
              | c3 :: rest3 =>
                if isCont c3 then
                  ((b - 0xF0) * 0x40000 + (c1 - 0x80) * 0x1000 +
                      (c2 - 0x80) * 0x40 + (c3 - 0x80)) :: utf8Lossy rest3
                else
                  0xFFFD :: utf8Lossy (c3 :: rest3)
            else
              0xFFFD :: utf8Lossy (c2 :: rest2)
        else
          0xFFFD :: utf8Lossy (c1 :: rest1)
    else
      0xFFFD :: utf8Lossy rest

/-- `DataReader::read_utf8_string`: lossily decode `size` bytes at the
cursor (panicking when the slice leaves the buffer), advance by `size`. -/
def read_utf8_string (r : DataReader) (size : Nat) :
    Except Err (List Nat × DataReader) :=
  if r.offset + size ≤ r.data.length then
    .ok (utf8Lossy ((r.data.drop r.offset).take size), r.skip size)
  else
    .error .fault

/-- `DataReader::unread_bytes`: `&self.data[self.offset..]`, panicking when
the cursor is past the buffer end. -/
def unread_bytes (r : DataReader) : Except Err (List Nat) :=
  if r.offset ≤ r.data.length then
    .ok (r.data.drop r.offset)
  else
    .error .fault

/-- `DataReader::slice`: `&self.data[start..end]`, panicking on a bad range. -/
def slice (r : DataReader) (start fin : Nat) : Except Err (List Nat) :=
  if start ≤ fin ∧ fin ≤ r.data.length then
    .ok ((r.data.drop start).take (fin - start))
  else
    .error .fault

/-- `LicenseeCode` from src/lib.rs. -/
inductive LicenseeCode where
  | None
  | Unknown
  | Nintendo
  | Capcom
  | Bandai
  | Namco
deriving DecidableEq

/-- `GBCFlag` from src/lib.rs. -/
inductive GBCFlag where
  | GBOnly
  | GBCAndGB
  | GBCOnly
deriving DecidableEq

/-- `SGBFlag` from src/lib.rs. -/
inductive SGBFlag where
  | NoSGB
  | SGBSupport
deriving DecidableEq

/-- `CartridgeType` from src/lib.rs (note: it has no `Unknown` variant). -/
inductive CartridgeType where
  | ROMOnly
  | MBC1
  | MBC1xRAM
  | MBC1xRAMxBattery
  | MBC2
  | MBC2xBattery
  | ROMxRAM
  | ROMxRAMxBattery
  | MMM01
  | MMM01xRAM
  | MMM01xRAMxBattery
  | MBC3xTimerxBattery
  | MBC3xTimerxRAMxBattery
  | MBC3
  | MBC3xRAM
  | MBC3xRAMxBattery
  | MBC5
  | MBC5xRAM
  | MBC5xRAMxBattery
  | MBC5xRumble
  | MBC5xRumblexRAM
  | MBC5xRumblexRAMxBattery
  | MBC6
  | MBC7xSensorxRumblexRAMxBattery
  | PocketCamera
  | BandaiTama5
  | HuC3
  | HuC1xRAMxBattery
deriving DecidableEq

/-- `ROMSize` from src/lib.rs. -/
inductive ROMSize where
  | NoBanking
  | Banks4
  | Banks8
  | Banks16
  | Banks32
  | Banks64
  | Banks72
  | Banks80
  | Banks96
  | Banks128
  | Banks256
  | Banks512
deriving DecidableEq

/-- `num_banks` from src/lib.rs. -/
def num_banks (rom_size : ROMSize) : Nat :=
  match rom_size with
  | .NoBanking => 2
  | .Banks4 => 4
  | .Banks8 => 8
  | .Banks16 => 16
  | .Banks32 => 32
  | .Banks64 => 64
  | .Banks72 => 72
  | .Banks80 => 80
  | .Banks96 => 96
  | .Banks128 => 128
  | .Banks256 => 256
  | .Banks512 => 512

/-- `RAMSize` from src/lib.rs. -/
inductive RAMSize where
  | None
  | KB2
  | KB8
  | KB32
  | KB64
  | KB128
deriving DecidableEq

/-- `DestinationCode` from src/lib.rs. -/
inductive DestinationCode where
  | Japanese
  | NonJapanese
deriving DecidableEq

/-- `Header` from src/lib.rs.  `entry_point` keeps its 4 raw bytes; the two
text fields hold Unicode scalar values. -/
structure Header where
  entry_point : List Nat
  game_title : List Nat
  manufacturer_code : List Nat
  gbc_flag : GBCFlag
  licensee_code : LicenseeCode
  sgb_flag : SGBFlag
  cartridge_type : CartridgeType
  rom_size : ROMSize
  ram_size : RAMSize
  destination_code : DestinationCode
  rom_version : Nat
  checksum : Nat
  global_checksum : Nat
deriving DecidableEq

/-- `GBBinary` from src/lib.rs. -/
structure GBBinary where
  header : Header
  bank_data : List (List Nat)
deriving DecidableEq

/-- `NEW_LICENCSEE_CODE_VAL` from src/lib.rs. -/
def NEW_LICENCSEE_CODE_VAL : Nat := 0x33

/-- `BANK_BYTES` from src/lib.rs. -/
def BANK_BYTES : Nat := 16 * 1024

/-- `DATA_START` from src/lib.rs. -/
def DATA_START : Nat := 0x150

/-- Rust's `format!("{:x}", b)`: lowercase hex, no leading zeros. -/
def hexStr (n : Nat) : String := String.mk (Nat.toDigits 16 n)

/-- `parse_gbc_flag` from src/lib.rs. -/
def parse_gbc_flag (flag : Nat) : Except Err GBCFlag :=
  match flag with
  | 0 => .ok .GBOnly
  | 0x80 => .ok .GBCAndGB
  | 0xC0 => .ok .GBCOnly
  | _ => .error (.msg ("unsupported GBC flag: " ++ hexStr flag))

/-- `parse_sgb_flag` from src/lib.rs. -/
def parse_sgb_flag (flag : Nat) : Except Err SGBFlag :=
  match flag with
  | 0x00 => .ok .NoSGB
  | 0x03 => .ok .SGBSupport
  | _ => .error (.msg ("unsupported SGB flag: " ++ hexStr flag))

/-- `parse_cartridge_type` from src/lib.rs (error-message typo preserved). -/
def parse_cartridge_type (t : Nat) : Except Err CartridgeType :=
  match t with
  | 0x00 => .ok .ROMOnly
  | 0x01 => .ok .MBC1
  | 0x02 => .ok .MBC1xRAM
  | 0x03 => .ok .MBC1xRAMxBattery
  | 0x05 => .ok .MBC2
  | 0x06 => .ok .MBC2xBattery
  | 0x08 => .ok .ROMxRAM
  | 0x09 => .ok .ROMxRAMxBattery
  | 0x0B => .ok .MMM01
  | 0x0C => .ok .MMM01xRAM
  | 0x0D => .ok .MMM01xRAMxBattery
  | 0x0F => .ok .MBC3xTimerxBattery
  | 0x10 => .ok .MBC3xTimerxRAMxBattery
  | 0x11 => .ok .MBC3
  | 0x12 => .ok .MBC3xRAM
  | 0x13 => .ok .MBC1xRAMxBattery
  | 0x19 => .ok .MBC5
  | 0x1A => .ok .MBC5xRAM
  | 0x1B => .ok .MBC5xRAMxBattery
  | 0x1C => .ok .MBC5xRumble
  | 0x1D => .ok .MBC5xRumblexRAM
  | 0x1E => .ok .MBC5xRumblexRAMxBattery
  | 0x20 => .ok .MBC6
  | 0x22 => .ok .MBC7xSensorxRumblexRAMxBattery
  | 0xFC => .ok .PocketCamera
  | 0xFD => .ok .BandaiTama5
  | 0xFE => .ok .HuC3
  | 0xFF => .ok .HuC1xRAMxBattery
  | _ => .error (.msg ("unsuported cartridge type: " ++ hexStr t))

/-- `parse_rom_size` from src/lib.rs. -/
def parse_rom_size (v : Nat) : Except Err ROMSize :=
  match v with
  | 0x00 => .ok .NoBanking
  | 0x01 => .ok .Banks4
  | 0x02 => .ok .Banks8
  | 0x03 => .ok .Banks16
  | 0x04 => .ok .Banks32
  | 0x05 => .ok .Banks64
  | 0x06 => .ok .Banks128
  | 0x07 => .ok .Banks256
  | 0x08 => .ok .Banks512
  | 0x52 => .ok .Banks72
  | 0x53 => .ok .Banks80
  | 0x54 => .ok .Banks96
  | _ => .error (.msg ("unsupported rom size: " ++ hexStr v))

/-- `parse_ram_size` from src/lib.rs. -/
def parse_ram_size (v : Nat) : Except Err RAMSize :=
  match v with
  | 0x00 => .ok .None
  | 0x01 => .ok .KB2
  | 0x02 => .ok .KB8
  | 0x03 => .ok .KB32
  | 0x04 => .ok .KB128
  | 0x05 => .ok .KB64
  | _ => .error (.msg ("unsupported ram size: " ++ hexStr v))

/-- `parse_destination_code` from src/lib.rs. -/
def parse_destination_code (v : Nat) : Except Err DestinationCode :=
  match v with
  | 0x00 => .ok .Japanese
  | 0x01 => .ok .NonJapanese
  | _ => .error (.msg ("unsupported destination code: " ++ hexStr v))

/-- `parse_new_licensee_code` from src/lib.rs: the two bytes of the
new-style code (`b"01"` is `(0x30, 0x31)` and so on). -/
def parse_new_licensee_code (code : Nat × Nat) : LicenseeCode :=
  match code with
  | (0x30, 0x30) => .None
  | (0x30, 0x31) => .Nintendo
  | (0x30, 0x38) => .Capcom
  | (0x42, 0x32) => .Bandai
  | (0x41, 0x46) => .Namco
  | _ => .Unknown

/-- `parse_old_licensee_code` from src/lib.rs. -/
def parse_old_licensee_code (code : Nat) : LicenseeCode :=
  match code with
  | 0x00 => .None
  | 0x01 => .Nintendo
  | 0x08 => .Capcom
  | 0xB2 => .Bandai
  | 0xAF => .Namco
  | _ => .Unknown

/-- `clean_string` from src/lib.rs: `str.replace('\0', "")`. -/
def clean_string (s : List Nat) : List Nat := s.filter (fun c => c ≠ 0)

/-- `parse_vectors` from src/lib.rs: skip the 0x100 boot-vector bytes. -/
def parse_vectors (r : DataReader) : Except Err DataReader :=
  .ok (r.skip 0x100)

/-- `parse_header` from src/lib.rs, with the reader state threaded
explicitly. -/
def parse_header (r : DataReader) : Except Err (Header × DataReader) := do
  let (e0, r) ← read_u8 r
  let (e1, r) ← read_u8 r
  let (e2, r) ← read_u8 r
  let (e3, r) ← read_u8 r
  let entry_point := [e0, e1, e2, e3]
  let r := r.skip 48
  let old_licensee_code ← read_u8_at r 0x14B
  let (game_title, r) ←
    if old_licensee_code = NEW_LICENCSEE_CODE_VAL then do
      let (s, r) ← read_utf8_string r 11
      pure (clean_string s, r)
    else do
      let (s, r) ← read_utf8_string r 15
      pure (clean_string s, r)
  let (manufacturer_code, r) ←
    if old_licensee_code = NEW_LICENCSEE_CODE_VAL then do
      let (s, r) ← read_utf8_string r 4
      pure (clean_string s, r)
    else
      pure (([] : List Nat), r)
  let (gbcByte, r) ← read_u8 r
  let gbc_flag ← parse_gbc_flag gbcByte
  let (n0, r) ← read_u8 r
  let (n1, r) ← read_u8 r
  let new_licensee_code := (n0, n1)
  let licensee_code :=
    if old_licensee_code = NEW_LICENCSEE_CODE_VAL then
      parse_new_licensee_code new_licensee_code
    else
      parse_old_licensee_code old_licensee_code
  let (sgbByte, r) ← read_u8 r
  let sgb_flag ← parse_sgb_flag sgbByte
  let (cartByte, r) ← read_u8 r
  let cartridge_type ← parse_cartridge_type cartByte
  let (romByte, r) ← read_u8 r
  let rom_size ← parse_rom_size romByte
  let (ramByte, r) ← read_u8 r
  let ram_size ← parse_ram_size ramByte
  let (destByte, r) ← read_u8 r
  let destination_code ← parse_destination_code destByte
  let r := r.skip 1
  let (rom_version, r) ← read_u8 r
  let (checksum, r) ← read_u8 r
  let (global_checksum, r) ← read_u16 r
  .ok ({ entry_point, game_title, manufacturer_code, gbc_flag, licensee_code,
         sgb_flag, cartridge_type, rom_size, ram_size, destination_code,
         rom_version, checksum, global_checksum }, r)

/-- The inner byte loop of `parse_bank_data`: read `size` bytes one at a
time with `read_u8`, collecting them in order. -/
def readBytes : Nat → DataReader → Except Err (List Nat × DataReader)
  | 0, r => .ok ([], r)
  | size + 1, r => do
    let (b, r) ← read_u8 r
    let (bs, r) ← readBytes size r
    .ok (b :: bs, r)

/-- The bank loop of `parse_bank_data`, indexed by the number of banks still
to read: the Rust loop index `b` satisfies `b = n - 1` exactly when one bank
is left, which is when the short size `BANK_BYTES - DATA_START` is used. -/
def bankLoop : Nat → DataReader → Except Err (List (List Nat) × DataReader)
  | 0, r => .ok ([], r)
  | left + 1, r => do
    let bank_size := if left = 0 then BANK_BYTES - DATA_START else BANK_BYTES
    let (bank, r) ← readBytes bank_size r
    let (rest, r) ← bankLoop left r
    .ok (bank :: rest, r)

/-- `parse_bank_data` from src/lib.rs. -/
def parse_bank_data (r : DataReader) (rom_size : ROMSize) :
    Except Err (List (List Nat) × DataReader) :=
  bankLoop (num_banks rom_size) r

/-- `load` from src/lib.rs: the core decode entry point. -/
def load (data : List Nat) : Except Err GBBinary := do
  let r := DataReader.new data
  let r ← parse_vectors r
  let (header, r) ← parse_header r
  let (bank_data, _) ← parse_bank_data r header.rom_size
  .ok ⟨header, bank_data⟩

/-! ### Inversion lemmas for the monadic primitives -/

theorem bind_eq_ok {α β : Type} {x : Except Err α} {f : α → Except Err β}
    {b : β} : x >>= f = .ok b ↔ ∃ a, x = .ok a ∧ f a = .ok b := by
  cases x <;> simp [Bind.bind, Except.bind]

theorem pure_eq_ok {α : Type} {a b : α} :
    (pure a : Except Err α) = .ok b ↔ a = b := by
  simp [pure, Except.pure]

theorem read_u8_eq_ok {r : DataReader} {v : Nat} {r' : DataReader} :
    read_u8 r = .ok (v, r') ↔
      r.data[r.offset]? = some v ∧ r' = ⟨r.data, r.offset + 1⟩ := by
  unfold read_u8
  cases h : r.data[r.offset]? <;> simp [h, eq_comm]

theorem read_u8_at_eq_ok {r : DataReader} {k v : Nat} :
    read_u8_at r k = .ok v ↔ r.data[k]? = some v := by
  unfold read_u8_at
  cases h : r.data[k]? <;> simp [h]

theorem read_utf8_string_eq_ok {r : DataReader} {n : Nat}
    {s : List Nat} {r' : DataReader} :
    read_utf8_string r n = .ok (s, r') ↔
      r.offset + n ≤ r.data.length ∧
      s = utf8Lossy ((r.data.drop r.offset).take n) ∧
      r' = ⟨r.data, r.offset + n⟩ := by
  unfold read_utf8_string
  split <;> rename_i h
  · simp [DataReader.skip, h, and_comm, eq_comm]
  · simp [h]

theorem read_le_eq_ok {r : DataReader} {n : Nat} {v : Nat}
    {r' : DataReader} :
    read_le r n = .ok (v, r') ↔
      r.offset + n ≤ r.data.length ∧
      v = leVal ((r.data.drop r.offset).take n) ∧
      r' = ⟨r.data, r.offset + n⟩ := by
  unfold read_le
  split <;> rename_i h
  · simp [DataReader.skip, h, and_comm, eq_comm]
  · simp [h]

theorem read_u16_eq_ok {r : DataReader} {v : Nat} {r' : DataReader} :
    read_u16 r = .ok (v, r') ↔
      r.offset + 2 ≤ r.data.length ∧
      v = leVal ((r.data.drop r.offset).take 2) ∧
      r' = ⟨r.data, r.offset + 2⟩ := by
  unfold read_u16
  exact read_le_eq_ok

/-! ### Shape lemmas for the bank loop -/

theorem readBytes_ok_shape : ∀ {k : Nat} {r : DataReader} {bs : List Nat}
    {r' : DataReader}, readBytes k r = .ok (bs, r') →
    bs.length = k ∧ r'.data = r.data ∧ r'.offset = r.offset + k := by
  intro k
  induction k with
  | zero =>
    intro r bs r' h
    simp [readBytes] at h
    obtain ⟨rfl, rfl⟩ := h
    simp
  | succ n ih =>
    intro r bs r' h
    simp only [readBytes, bind_eq_ok] at h
    obtain ⟨⟨b, r1⟩, h1, h⟩ := h
    obtain ⟨⟨bs2, r2⟩, h2, h⟩ := h
    rw [read_u8_eq_ok] at h1
    obtain ⟨_, rfl⟩ := h1
    obtain ⟨hlen, hdata, hoff⟩ := ih h2
    simp only [Except.ok.injEq, Prod.mk.injEq] at h
    obtain ⟨rfl, rfl⟩ := h
    refine ⟨by simp [hlen], by simpa using hdata, ?_⟩
    simp only [hoff]
    omega

/-- The list of bank sizes produced by the bank loop, outermost first: the
full `BANK_BYTES` until one bank is left, then `BANK_BYTES - DATA_START`. -/
def loopSizes : Nat → List Nat
  | 0 => []
  | left + 1 =>
    (if left = 0 then BANK_BYTES - DATA_START else BANK_BYTES) :: loopSizes left

theorem bankLoop_ok_shape : ∀ {left : Nat} {r : DataReader}
    {banks : List (List Nat)} {r' : DataReader},
    bankLoop left r = .ok (banks, r') →
    banks.map List.length = loopSizes left := by
  intro left
  induction left with
  | zero =>
    intro r banks r' h
    simp [bankLoop] at h
    obtain ⟨rfl, rfl⟩ := h
    simp [loopSizes]
  | succ n ih =>
    intro r banks r' h
    simp only [bankLoop, bind_eq_ok] at h
    obtain ⟨⟨bank, r1⟩, h1, h⟩ := h
    obtain ⟨⟨rest, r2⟩, h2, h⟩ := h
    simp only [Except.ok.injEq, Prod.mk.injEq] at h
    obtain ⟨rfl, rfl⟩ := h
    obtain ⟨hlen, -, -⟩ := readBytes_ok_shape h1
    simp [loopSizes, ih h2, hlen]

theorem loopSizes_succ_eq : ∀ n : Nat,
    loopSizes (n + 1) = List.replicate n BANK_BYTES ++ [BANK_BYTES - DATA_START] := by
  intro n
  induction n with
  | zero => simp [loopSizes]
  | succ m ih =>
    have h : loopSizes (m + 1 + 1) = BANK_BYTES :: loopSizes (m + 1) := by
      simp [loopSizes]
    rw [h, ih, List.replicate_succ]
    simp

theorem loopSizes_eq : ∀ n : Nat, 1 ≤ n →
    loopSizes n = List.replicate (n - 1) BANK_BYTES ++ [BANK_BYTES - DATA_START] := by
  intro n hn
  cases n with
  | zero => omega
  | succ m => simpa using loopSizes_succ_eq m

theorem loopSizes_sum : ∀ n : Nat, 1 ≤ n →
    (loopSizes n).sum = n * BANK_BYTES - DATA_START := by
  intro n hn
  rw [loopSizes_eq n hn]
  simp [List.sum_replicate, smul_eq_mul, BANK_BYTES, DATA_START]
  omega

/-! ### Characterization of a successful `parse_header` run -/

theorem parse_header_ok_char {d : List Nat} {hd : Header} {r' : DataReader}
    (hp : parse_header ⟨d, 0x100⟩ = .ok (hd, r')) :
    r'.data = d ∧ r'.offset = 0x150 ∧
    ∃ olc, d[0x14B]? = some olc ∧
      ((olc = NEW_LICENCSEE_CODE_VAL ∧
        hd.game_title = clean_string (utf8Lossy ((d.drop 0x134).take 11)) ∧
        hd.manufacturer_code = clean_string (utf8Lossy ((d.drop 0x13F).take 4))) ∨
       (olc ≠ NEW_LICENCSEE_CODE_VAL ∧
        hd.game_title = clean_string (utf8Lossy ((d.drop 0x134).take 15)) ∧
        hd.manufacturer_code = [])) := by
  simp only [parse_header, bind_eq_ok] at hp
  obtain ⟨⟨e0, r1⟩, h0, hp⟩ := hp
  rw [read_u8_eq_ok] at h0
  obtain ⟨hb0, rfl⟩ := h0
  dsimp only at hp
  obtain ⟨⟨e1, r2⟩, h1, hp⟩ := hp
  rw [read_u8_eq_ok] at h1
  obtain ⟨hb1, rfl⟩ := h1
  dsimp only at hp
  obtain ⟨⟨e2, r3⟩, h2, hp⟩ := hp
  rw [read_u8_eq_ok] at h2
  obtain ⟨hb2, rfl⟩ := h2
  dsimp only at hp
  obtain ⟨⟨e3, r4⟩, h3, hp⟩ := hp
  rw [read_u8_eq_ok] at h3
  obtain ⟨hb3, rfl⟩ := h3
  dsimp only at hp
  obtain ⟨olc, holc, hp⟩ := hp
  rw [read_u8_at_eq_ok] at holc
  simp only [DataReader.skip] at holc hp
  refine ?_
  by_cases h33 : olc = NEW_LICENCSEE_CODE_VAL
  · simp only [if_pos h33, bind_eq_ok] at hp
    obtain ⟨⟨title, r5⟩, h5, hp⟩ := hp
    rw [read_utf8_string_eq_ok] at h5
    obtain ⟨hlen1, rfl, rfl⟩ := h5
    obtain ⟨⟨gt, rgt⟩, hgt, hp⟩ := hp
    rw [pure_eq_ok] at hgt
    simp only [Prod.mk.injEq] at hgt
    obtain ⟨rfl, rfl⟩ := hgt
    obtain ⟨⟨s2, r6⟩, h6, hp⟩ := hp
    rw [read_utf8_string_eq_ok] at h6
    obtain ⟨hlen2, rfl, rfl⟩ := h6
    obtain ⟨⟨mc, rmc⟩, hmc, hp⟩ := hp
    rw [pure_eq_ok] at hmc
    simp only [Prod.mk.injEq] at hmc
    obtain ⟨rfl, rfl⟩ := hmc
    obtain ⟨⟨gbcB, r7⟩, h7, hp⟩ := hp
    rw [read_u8_eq_ok] at h7
    obtain ⟨hb7, rfl⟩ := h7
    obtain ⟨gbc, hgbc, hp⟩ := hp
    obtain ⟨⟨n0, r8⟩, h8, hp⟩ := hp
    rw [read_u8_eq_ok] at h8
    obtain ⟨hb8, rfl⟩ := h8
    obtain ⟨⟨n1, r9⟩, h9, hp⟩ := hp
    rw [read_u8_eq_ok] at h9
    obtain ⟨hb9, rfl⟩ := h9
    obtain ⟨⟨sgbB, r10⟩, h10, hp⟩ := hp
    rw [read_u8_eq_ok] at h10
    obtain ⟨hb10, rfl⟩ := h10
    obtain ⟨sgb, hsgb, hp⟩ := hp
    obtain ⟨⟨cartB, r11⟩, h11, hp⟩ := hp
    rw [read_u8_eq_ok] at h11
    obtain ⟨hb11, rfl⟩ := h11
    obtain ⟨cart, hcart, hp⟩ := hp
    obtain ⟨⟨romB, r12⟩, h12, hp⟩ := hp
    rw [read_u8_eq_ok] at h12
    obtain ⟨hb12, rfl⟩ := h12
    obtain ⟨rom, hrom, hp⟩ := hp
    obtain ⟨⟨ramB, r13⟩, h13, hp⟩ := hp
    rw [read_u8_eq_ok] at h13
    obtain ⟨hb13, rfl⟩ := h13
    obtain ⟨ram, hram, hp⟩ := hp
    obtain ⟨⟨destB, r14⟩, h14, hp⟩ := hp
    rw [read_u8_eq_ok] at h14
    obtain ⟨hb14, rfl⟩ := h14
    obtain ⟨dest, hdest, hp⟩ := hp
    obtain ⟨⟨verB, r15⟩, h15, hp⟩ := hp
    rw [read_u8_eq_ok] at h15
    obtain ⟨hb15, rfl⟩ := h15
    obtain ⟨⟨chkB, r16⟩, h16, hp⟩ := hp
    rw [read_u8_eq_ok] at h16
    obtain ⟨hb16, rfl⟩ := h16
    obtain ⟨⟨glob, r17⟩, h17, hp⟩ := hp
    rw [read_u16_eq_ok] at h17
    obtain ⟨hlen17, hglob, rfl⟩ := h17
    simp only [Except.ok.injEq, Prod.mk.injEq] at hp
    obtain ⟨hhd, hr'⟩ := hp
    subst hhd
    subst hr'
    refine ⟨rfl, by norm_num, olc, by simpa using holc, ?_⟩
    left
    refine ⟨h33, ?_, ?_⟩ <;> norm_num
  · simp only [if_neg h33, bind_eq_ok] at hp
    obtain ⟨⟨title, r5⟩, h5, hp⟩ := hp
    rw [read_utf8_string_eq_ok] at h5
    obtain ⟨hlen1, rfl, rfl⟩ := h5
    obtain ⟨⟨gt, rgt⟩, hgt, hp⟩ := hp
    rw [pure_eq_ok] at hgt
    simp only [Prod.mk.injEq] at hgt
    obtain ⟨rfl, rfl⟩ := hgt
    obtain ⟨⟨mc, rmc⟩, hmc, hp⟩ := hp
    rw [pure_eq_ok] at hmc
    simp only [Prod.mk.injEq] at hmc
    obtain ⟨rfl, rfl⟩ := hmc
    obtain ⟨⟨gbcB, r7⟩, h7, hp⟩ := hp
    rw [read_u8_eq_ok] at h7
    obtain ⟨hb7, rfl⟩ := h7
    obtain ⟨gbc, hgbc, hp⟩ := hp
    obtain ⟨⟨n0, r8⟩, h8, hp⟩ := hp
    rw [read_u8_eq_ok] at h8
    obtain ⟨hb8, rfl⟩ := h8
    obtain ⟨⟨n1, r9⟩, h9, hp⟩ := hp
    rw [read_u8_eq_ok] at h9
    obtain ⟨hb9, rfl⟩ := h9
    obtain ⟨⟨sgbB, r10⟩, h10, hp⟩ := hp
    rw [read_u8_eq_ok] at h10
    obtain ⟨hb10, rfl⟩ := h10
    obtain ⟨sgb, hsgb, hp⟩ := hp
    obtain ⟨⟨cartB, r11⟩, h11, hp⟩ := hp
    rw [read_u8_eq_ok] at h11
    obtain ⟨hb11, rfl⟩ := h11
    obtain ⟨cart, hcart, hp⟩ := hp
    obtain ⟨⟨romB, r12⟩, h12, hp⟩ := hp
    rw [read_u8_eq_ok] at h12
    obtain ⟨hb12, rfl⟩ := h12
    obtain ⟨rom, hrom, hp⟩ := hp
    obtain ⟨⟨ramB, r13⟩, h13, hp⟩ := hp
    rw [read_u8_eq_ok] at h13
    obtain ⟨hb13, rfl⟩ := h13
    obtain ⟨ram, hram, hp⟩ := hp
    obtain ⟨⟨destB, r14⟩, h14, hp⟩ := hp
    rw [read_u8_eq_ok] at h14
    obtain ⟨hb14, rfl⟩ := h14
    obtain ⟨dest, hdest, hp⟩ := hp
    obtain ⟨⟨verB, r15⟩, h15, hp⟩ := hp
    rw [read_u8_eq_ok] at h15
    obtain ⟨hb15, rfl⟩ := h15
    obtain ⟨⟨chkB, r16⟩, h16, hp⟩ := hp
    rw [read_u8_eq_ok] at h16
    obtain ⟨hb16, rfl⟩ := h16
    obtain ⟨⟨glob, r17⟩, h17, hp⟩ := hp
    rw [read_u16_eq_ok] at h17
    obtain ⟨hlen17, hglob, rfl⟩ := h17
    simp only [Except.ok.injEq, Prod.mk.injEq] at hp
    obtain ⟨hhd, hr'⟩ := hp
    subst hhd
    subst hr'
    refine ⟨rfl, by norm_num, olc, by simpa using holc, ?_⟩
    right
    refine ⟨h33, ?_, rfl⟩
    norm_num

/-! ### Evaluation on the all-zero 32 KiB image -/

theorem ok_bind {α β : Type} (a : α) (f : α → Except Err β) :
    (Except.ok a : Except Err α) >>= f = f a := rfl

theorem error_bind {α β : Type} (e : Err) (f : α → Except Err β) :
    (Except.error e : Except Err α) >>= f = .error e := rfl

theorem map_eq_ok {α β : Type} {x : Except Err α} {f : α → β} {b : β} :
    x.map f = .ok b ↔ ∃ a, x = .ok a ∧ f a = b := by
  cases x <;> simp [Except.map]

/-- The 32 KiB all-zero test image. -/
def zeroRom : List Nat := List.replicate 32768 0

/-- The header decoded from the all-zero image. -/
def zeroHeader : Header :=
  { entry_point := [0, 0, 0, 0], game_title := [], manufacturer_code := [],
    gbc_flag := .GBOnly, licensee_code := .None, sgb_flag := .NoSGB,
    cartridge_type := .ROMOnly, rom_size := .NoBanking, ram_size := .None,
    destination_code := .Japanese, rom_version := 0, checksum := 0,
    global_checksum := 0 }

/-- ASCII byte lists decode to themselves under lossy UTF-8 decoding. -/
theorem utf8Lossy_ascii : ∀ l : List Nat, (∀ c ∈ l, c ≤ 0x7F) →
    utf8Lossy l = l := by
  intro l
  induction l with
  | nil => intro _; rfl
  | cons b rest ih =>
    intro h
    have hb : b ≤ 0x7F := h b (by simp)
    rw [utf8Lossy.eq_def]
    simp only []
    rw [if_pos hb, ih (fun c hc => h c (by simp [hc]))]

theorem clean_string_replicate_zero (n : Nat) :
    clean_string (List.replicate n 0) = [] := by
  simp [clean_string]

theorem pure_bind {α β : Type} (a : α) (f : α → Except Err β) :
    (pure a : Except Err α) >>= f = f a := rfl

theorem readBytes_replicate {N : Nat} : ∀ (k off : Nat), off + k ≤ N →
    readBytes k ⟨List.replicate N 0, off⟩ =
      .ok (List.replicate k 0, ⟨List.replicate N 0, off + k⟩) := by
  intro k
  induction k with
  | zero =>
    intro off h
    simp [readBytes]
  | succ n ih =>
    intro off h
    have hlt : off < N := by omega
    simp only [readBytes, read_u8, List.getElem?_replicate, if_pos hlt, ok_bind]
    rw [ih (off + 1) (by omega)]
    simp only [ok_bind]
    have harith : off + 1 + n = off + (n + 1) := by omega
    rw [harith, ← List.replicate_succ]

theorem zeroRom_length : zeroRom.length = 32768 := by
  unfold zeroRom
  rw [List.length_replicate]

theorem zeroRom_getElem {i : Nat} (h : i < 32768) : zeroRom[i]? = some 0 := by
  unfold zeroRom
  rw [List.getElem?_replicate, if_pos h]

theorem zeroRom_slice {a k : Nat} (h : a + k ≤ 32768) :
    (zeroRom.drop a).take k = List.replicate k 0 := by
  unfold zeroRom
  rw [List.drop_replicate, List.take_replicate, show min k (32768 - a) = k by omega]

theorem zeroRom_read_u8 {k : Nat} (h : k < 32768) :
    read_u8 ⟨zeroRom, k⟩ = .ok (0, ⟨zeroRom, k + 1⟩) :=
  read_u8_eq_ok.mpr ⟨zeroRom_getElem h, rfl⟩

theorem zeroRom_read_u16 {k : Nat} (h : k + 2 ≤ 32768) :
    read_u16 ⟨zeroRom, k⟩ = .ok (0, ⟨zeroRom, k + 2⟩) :=
  read_u16_eq_ok.mpr ⟨by dsimp only; rw [zeroRom_length]; omega,
    by dsimp only; rw [zeroRom_slice (by omega)]; rfl, rfl⟩

theorem zeroRom_read_title :
    read_utf8_string ⟨zeroRom, 308⟩ 15 =
      .ok (List.replicate 15 0, ⟨zeroRom, 323⟩) :=
  read_utf8_string_eq_ok.mpr ⟨by dsimp only; rw [zeroRom_length]; omega,
    by
      dsimp only
      rw [zeroRom_slice (by omega),
        utf8Lossy_ascii _ (by
          intro c hc
          rw [List.eq_of_mem_replicate hc]
          norm_num)],
    rfl⟩

theorem clean_string_replicate_zero2 (n : Nat) :
    clean_string (List.replicate n 0) = [] := by
  simp [clean_string]

theorem parse_header_zeroRom :
    parse_header ⟨zeroRom, 0x100⟩ = .ok (zeroHeader, ⟨zeroRom, 0x150⟩) := by
  simp only [parse_header, bind_eq_ok]
  refine ⟨(0, ⟨zeroRom, 257⟩), zeroRom_read_u8 (by norm_num),
    (0, ⟨zeroRom, 258⟩), zeroRom_read_u8 (by norm_num),
    (0, ⟨zeroRom, 259⟩), zeroRom_read_u8 (by norm_num),
    (0, ⟨zeroRom, 260⟩), zeroRom_read_u8 (by norm_num),
    0, read_u8_at_eq_ok.mpr (zeroRom_getElem (by norm_num)), ?_⟩
  rw [if_neg (by norm_num [NEW_LICENCSEE_CODE_VAL])]
  simp only [bind_eq_ok, pure_eq_ok]
  refine ⟨(List.replicate 15 0, ⟨zeroRom, 323⟩), zeroRom_read_title,
    ([], ⟨zeroRom, 323⟩), by rw [clean_string_replicate_zero2], ?_⟩
  rw [if_neg (by norm_num [NEW_LICENCSEE_CODE_VAL])]
  simp only [bind_eq_ok, pure_eq_ok]
  refine ⟨([], ⟨zeroRom, 323⟩), rfl,
    (0, ⟨zeroRom, 324⟩), zeroRom_read_u8 (by norm_num),
    .GBOnly, rfl,
    (0, ⟨zeroRom, 325⟩), zeroRom_read_u8 (by norm_num),
    (0, ⟨zeroRom, 326⟩), zeroRom_read_u8 (by norm_num),
    (0, ⟨zeroRom, 327⟩), zeroRom_read_u8 (by norm_num),
    .NoSGB, rfl,
    (0, ⟨zeroRom, 328⟩), zeroRom_read_u8 (by norm_num),
    .ROMOnly, rfl,
    (0, ⟨zeroRom, 329⟩), zeroRom_read_u8 (by norm_num),
    .NoBanking, rfl,
    (0, ⟨zeroRom, 330⟩), zeroRom_read_u8 (by norm_num),
    .None, rfl,
    (0, ⟨zeroRom, 331⟩), zeroRom_read_u8 (by norm_num),
    .Japanese, rfl,
    (0, ⟨zeroRom, 333⟩), zeroRom_read_u8 (by norm_num),
    (0, ⟨zeroRom, 334⟩), zeroRom_read_u8 (by norm_num),
    (0, ⟨zeroRom, 336⟩), zeroRom_read_u16 (by norm_num), ?_⟩
  rfl

theorem bankLoop_succ (left : Nat) (r : DataReader) :
    bankLoop (left + 1) r =
      ((readBytes (if left = 0 then BANK_BYTES - DATA_START else BANK_BYTES) r) >>=
        fun p => (bankLoop left p.2) >>= fun q => .ok (p.1 :: q.1, q.2)) := by
  cases hb : readBytes (if left = 0 then BANK_BYTES - DATA_START else BANK_BYTES) r with
  | error e =>
    simp only [bankLoop, hb, error_bind]
  | ok p =>
    simp only [bankLoop, hb, ok_bind]

theorem bankLoop_one :
    bankLoop 1 ⟨zeroRom, 16720⟩ =
      .ok ([List.replicate 16048 0], ⟨zeroRom, 32768⟩) := by
  have h3 : readBytes 16048 ⟨zeroRom, 16720⟩ =
      .ok (List.replicate 16048 0, ⟨zeroRom, 32768⟩) :=
    readBytes_replicate 16048 16720 (by norm_num)
  rw [show (1 : Nat) = 0 + 1 from rfl, bankLoop_succ, if_pos rfl,
    show BANK_BYTES - DATA_START = 16048 from rfl, h3, ok_bind]
  dsimp only []
  rw [show bankLoop 0 (⟨zeroRom, 32768⟩ : DataReader) =
    .ok ([], ⟨zeroRom, 32768⟩) from rfl]
  rfl

theorem bankLoop_zeroRom :
    bankLoop 2 ⟨zeroRom, 0x150⟩ =
      .ok ([List.replicate 16384 0, List.replicate 16048 0], ⟨zeroRom, 32768⟩) := by
  have h1 : readBytes 16384 ⟨zeroRom, 0x150⟩ =
      .ok (List.replicate 16384 0, ⟨zeroRom, 16720⟩) :=
    readBytes_replicate 16384 336 (by norm_num)
  rw [show (2 : Nat) = 1 + 1 from rfl, bankLoop_succ, if_neg one_ne_zero,
    show BANK_BYTES = 16384 from rfl, h1, ok_bind]
  dsimp only []
  rw [bankLoop_one, ok_bind]

theorem load_zeroRom :
    load zeroRom =
      .ok ⟨zeroHeader, [List.replicate 16384 0, List.replicate 16048 0]⟩ := by
  unfold load
  dsimp only []
  rw [show parse_vectors (DataReader.new zeroRom) =
    Except.ok (⟨zeroRom, 0x100⟩ : DataReader) from rfl, ok_bind]
  rw [parse_header_zeroRom, ok_bind]
  dsimp only []
  rw [show parse_bank_data (⟨zeroRom, 0x150⟩ : DataReader) zeroHeader.rom_size =
    bankLoop 2 ⟨zeroRom, 0x150⟩ from rfl]
  rw [bankLoop_zeroRom]
  rfl

/-! ### Support lemmas for the claim theorems -/

theorem num_banks_pos (s : ROMSize) : 1 ≤ num_banks s := by
  cases s <;> norm_num [num_banks]

theorem loopSizes_length : ∀ n : Nat, (loopSizes n).length = n := by
  intro n
  induction n with
  | zero => rfl
  | succ m ih => simp [loopSizes, ih]

theorem load_ok_inv {data : List Nat} {gb : GBBinary}
    (h : load data = .ok gb) :
    ∃ hd r1 banks r2, parse_header ⟨data, 0x100⟩ = .ok (hd, r1) ∧
      parse_bank_data r1 hd.rom_size = .ok (banks, r2) ∧
      gb = ⟨hd, banks⟩ := by
  unfold load at h
  dsimp only [] at h
  rw [show parse_vectors (DataReader.new data) =
    .ok (⟨data, 0x100⟩ : DataReader) from rfl, ok_bind] at h
  simp only [bind_eq_ok] at h
  obtain ⟨⟨hd, r1⟩, h1, h⟩ := h
  obtain ⟨⟨banks, r2⟩, h2, h⟩ := h
  simp only [Except.ok.injEq] at h
  exact ⟨hd, r1, banks, r2, h1, h2, h.symm⟩

theorem zero_banks_lengths :
    [List.replicate 16384 (0 : Nat), List.replicate 16048 0].map List.length =
      [16384, 16048] := by
  rw [show [List.replicate 16384 (0 : Nat), List.replicate 16048 0].map List.length =
    [(List.replicate 16384 (0 : Nat)).length, (List.replicate 16048 (0 : Nat)).length] from rfl,
    List.length_replicate, List.length_replicate]

/-- The 28 byte values listed in `parse_cartridge_type` (27 distinct
variants, with 0x03 and 0x13 sharing one). -/
def cartTypeBytes : List Nat :=
  [0x00, 0x01, 0x02, 0x03, 0x05, 0x06, 0x08, 0x09, 0x0B, 0x0C, 0x0D, 0x0F,
   0x10, 0x11, 0x12, 0x13, 0x19, 0x1A, 0x1B, 0x1C, 0x1D, 0x1E, 0x20, 0x22,
   0xFC, 0xFD, 0xFE, 0xFF]

def gbcFlagBytes : List Nat := [0x00, 0x80, 0xC0]

def sgbFlagBytes : List Nat := [0x00, 0x03]

def destCodeBytes : List Nat := [0x00, 0x01]

def romSizeBytes : List Nat :=
  [0x00, 0x01, 0x02, 0x03, 0x04, 0x05, 0x06, 0x07, 0x08, 0x52, 0x53, 0x54]

def ramSizeBytes : List Nat := [0x00, 0x01, 0x02, 0x03, 0x04, 0x05]

def newLicenseeBytes : List (Nat × Nat) :=
  [(0x30, 0x30), (0x30, 0x31), (0x30, 0x38), (0x42, 0x32), (0x41, 0x46)]

def oldLicenseeBytes : List Nat := [0x00, 0x01, 0x08, 0xB2, 0xAF]

instance {ε α : Type} [DecidableEq ε] [DecidableEq α] :
    DecidableEq (Except ε α) := fun x y =>
  match x, y with
  | .ok a, .ok b => if h : a = b then isTrue (by rw [h]) else isFalse (by simp [h])
  | .ok _, .error _ => isFalse (by simp)
  | .error _, .ok _ => isFalse (by simp)
  | .error e, .error f => if h : e = f then isTrue (by rw [h]) else isFalse (by simp [h])

theorem gbc_flag_unlisted (v : Nat) (hv : v ∉ gbcFlagBytes) :
    parse_gbc_flag v = .error (.msg ("unsupported GBC flag: " ++ hexStr v)) := by
  simp only [gbcFlagBytes, List.mem_cons, List.not_mem_nil, or_false, not_or] at hv
  obtain ⟨h1, h2, h3⟩ := hv
  unfold parse_gbc_flag
  split
  · exact absurd rfl h1
  · exact absurd rfl h2
  · exact absurd rfl h3
  · rfl

theorem sgb_flag_unlisted (v : Nat) (hv : v ∉ sgbFlagBytes) :
    parse_sgb_flag v = .error (.msg ("unsupported SGB flag: " ++ hexStr v)) := by
  simp only [sgbFlagBytes, List.mem_cons, List.not_mem_nil, or_false, not_or] at hv
  obtain ⟨h1, h2⟩ := hv
  unfold parse_sgb_flag
  split
  · exact absurd rfl h1
  · exact absurd rfl h2
  · rfl

theorem dest_code_unlisted (v : Nat) (hv : v ∉ destCodeBytes) :
    parse_destination_code v = .error (.msg ("unsupported destination code: " ++ hexStr v)) := by
  simp only [destCodeBytes, List.mem_cons, List.not_mem_nil, or_false, not_or] at hv
  obtain ⟨h1, h2⟩ := hv
  unfold parse_destination_code
  split
  · exact absurd rfl h1
  · exact absurd rfl h2
  · rfl

theorem rom_size_unlisted (v : Nat) (hv : v ∉ romSizeBytes) :
    parse_rom_size v = .error (.msg ("unsupported rom size: " ++ hexStr v)) := by
  simp only [romSizeBytes, List.mem_cons, List.not_mem_nil, or_false, not_or] at hv
  obtain ⟨h1, h2, h3, h4, h5, h6, h7, h8, h9, h10, h11, h12⟩ := hv
  unfold parse_rom_size
  split
  · exact absurd rfl h1
  · exact absurd rfl h2
  · exact absurd rfl h3
  · exact absurd rfl h4
  · exact absurd rfl h5
  · exact absurd rfl h6
  · exact absurd rfl h7
  · exact absurd rfl h8
  · exact absurd rfl h9
  · exact absurd rfl h10
  · exact absurd rfl h11
  · exact absurd rfl h12
  · rfl

theorem ram_size_unlisted (v : Nat) (hv : v ∉ ramSizeBytes) :
    parse_ram_size v = .error (.msg ("unsupported ram size: " ++ hexStr v)) := by
  simp only [ramSizeBytes, List.mem_cons, List.not_mem_nil, or_false, not_or] at hv
  obtain ⟨h1, h2, h3, h4, h5, h6⟩ := hv
  unfold parse_ram_size
  split
  · exact absurd rfl h1
  · exact absurd rfl h2
  · exact absurd rfl h3
  · exact absurd rfl h4
  · exact absurd rfl h5
  · exact absurd rfl h6
  · rfl

theorem cart_type_unlisted (v : Nat) (hv : v ∉ cartTypeBytes) :
    parse_cartridge_type v = .error (.msg ("unsuported cartridge type: " ++ hexStr v)) := by
  simp only [cartTypeBytes, List.mem_cons, List.not_mem_nil, or_false, not_or] at hv
  obtain ⟨h1, h2, h3, h4, h5, h6, h7, h8, h9, h10, h11, h12, h13, h14, h15, h16, h17, h18, h19, h20, h21, h22, h23, h24, h25, h26, h27, h28⟩ := hv
  unfold parse_cartridge_type
  split
  · exact absurd rfl h1
  · exact absurd rfl h2
  · exact absurd rfl h3
  · exact absurd rfl h4
  · exact absurd rfl h5
  · exact absurd rfl h6
  · exact absurd rfl h7
  · exact absurd rfl h8
  · exact absurd rfl h9
  · exact absurd rfl h10
  · exact absurd rfl h11
  · exact absurd rfl h12
  · exact absurd rfl h13
  · exact absurd rfl h14
  · exact absurd rfl h15
  · exact absurd rfl h16
  · exact absurd rfl h17
  · exact absurd rfl h18
  · exact absurd rfl h19
  · exact absurd rfl h20
  · exact absurd rfl h21
  · exact absurd rfl h22
  · exact absurd rfl h23
  · exact absurd rfl h24
  · exact absurd rfl h25
  · exact absurd rfl h26
  · exact absurd rfl h27
  · exact absurd rfl h28
  · rfl

theorem new_licensee_unlisted (a b : Nat)
    (hv : (a, b) ∉ newLicenseeBytes) :
    parse_new_licensee_code (a, b) = .Unknown := by
  simp only [newLicenseeBytes, List.mem_cons, List.not_mem_nil, or_false,
    not_or, Prod.mk.injEq] at hv
  obtain ⟨h1, h2, h3, h4, h5⟩ := hv
  unfold parse_new_licensee_code
  split
  · rename_i heq
    injection heq with ha hb
    exact absurd ⟨ha, hb⟩ h1
  · rename_i heq
    injection heq with ha hb
    exact absurd ⟨ha, hb⟩ h2
  · rename_i heq
    injection heq with ha hb
    exact absurd ⟨ha, hb⟩ h3
  · rename_i heq
    injection heq with ha hb
    exact absurd ⟨ha, hb⟩ h4
  · rename_i heq
    injection heq with ha hb
    exact absurd ⟨ha, hb⟩ h5
  · rfl

theorem old_licensee_unlisted (v : Nat)
    (hv : v ∉ oldLicenseeBytes) :
    parse_old_licensee_code v = .Unknown := by
  simp only [oldLicenseeBytes, List.mem_cons, List.not_mem_nil, or_false,
    not_or] at hv
  obtain ⟨h1, h2, h3, h4, h5⟩ := hv
  unfold parse_old_licensee_code
  split
  · exact absurd rfl h1
  · exact absurd rfl h2
  · exact absurd rfl h3
  · exact absurd rfl h4
  · exact absurd rfl h5
  · rfl

/-! ### Claim theorems -/

/-- C2, counterexample: the claim says a byte outside the 27 listed values
decodes to an `Unknown` variant with decoding continuing, but
`parse_cartridge_type 0x04` returns a decode error (and `CartridgeType` has
no `Unknown` variant at all). -/
theorem c2_counterexample :
    parse_cartridge_type 0x04 = .error (.msg "unsuported cartridge type: 4") := by
  rfl

/-- C2, amended: bytes 0x13 and 0x03 both decode to
`CartridgeType.MBC1xRAMxBattery` (the duplicate mapping is preserved), and
every byte outside the 27 listed values returns an error naming the
cartridge-type field and the raw byte in hex — decoding halts, it does not
continue with an `Unknown` variant. -/
theorem c2_cartridge_type_amended :
    parse_cartridge_type 0x03 = .ok .MBC1xRAMxBattery ∧
    parse_cartridge_type 0x13 = .ok .MBC1xRAMxBattery ∧
    ∀ v : Fin 256, v.val ∈ cartTypeBytes ∨
      parse_cartridge_type v.val =
        .error (.msg ("unsuported cartridge type: " ++ hexStr v.val)) := by
  refine ⟨rfl, rfl, ?_⟩
  intro v
  by_cases hm : v.val ∈ cartTypeBytes
  · exact Or.inl hm
  · exact Or.inr (cart_type_unlisted v.val hm)

/-- C3: every listed byte of the five strict-enum fields (GBC flag, SGB
flag, ROM size, RAM size, destination code) decodes to its documented
variant (including the out-of-order entries 0x52/0x53/0x54 → 72/80/96 banks
and 0x04 → 128 KB, 0x05 → 64 KB), and every unlisted byte produces an error
naming the field and the raw byte, so no `Header` value is produced for that
field. -/
theorem c3_strict_enum_tables :
    (parse_gbc_flag 0x00 = .ok .GBOnly ∧ parse_gbc_flag 0x80 = .ok .GBCAndGB ∧
      parse_gbc_flag 0xC0 = .ok .GBCOnly) ∧
    (parse_sgb_flag 0x00 = .ok .NoSGB ∧ parse_sgb_flag 0x03 = .ok .SGBSupport) ∧
    (parse_destination_code 0x00 = .ok .Japanese ∧
      parse_destination_code 0x01 = .ok .NonJapanese) ∧
    (parse_rom_size 0x00 = .ok .NoBanking ∧ parse_rom_size 0x01 = .ok .Banks4 ∧
      parse_rom_size 0x02 = .ok .Banks8 ∧ parse_rom_size 0x03 = .ok .Banks16 ∧
      parse_rom_size 0x04 = .ok .Banks32 ∧ parse_rom_size 0x05 = .ok .Banks64 ∧
      parse_rom_size 0x06 = .ok .Banks128 ∧ parse_rom_size 0x07 = .ok .Banks256 ∧
      parse_rom_size 0x08 = .ok .Banks512 ∧
      parse_rom_size 0x52 = .ok .Banks72 ∧ num_banks .Banks72 = 72 ∧
      parse_rom_size 0x53 = .ok .Banks80 ∧ num_banks .Banks80 = 80 ∧
      parse_rom_size 0x54 = .ok .Banks96 ∧ num_banks .Banks96 = 96) ∧
    (parse_ram_size 0x00 = .ok .None ∧ parse_ram_size 0x01 = .ok .KB2 ∧
      parse_ram_size 0x02 = .ok .KB8 ∧ parse_ram_size 0x03 = .ok .KB32 ∧
      parse_ram_size 0x04 = .ok .KB128 ∧ parse_ram_size 0x05 = .ok .KB64) ∧
    (∀ v : Fin 256, v.val ∈ gbcFlagBytes ∨
      parse_gbc_flag v.val =
        .error (.msg ("unsupported GBC flag: " ++ hexStr v.val))) ∧
    (∀ v : Fin 256, v.val ∈ sgbFlagBytes ∨
      parse_sgb_flag v.val =
        .error (.msg ("unsupported SGB flag: " ++ hexStr v.val))) ∧
    (∀ v : Fin 256, v.val ∈ romSizeBytes ∨
      parse_rom_size v.val =
        .error (.msg ("unsupported rom size: " ++ hexStr v.val))) ∧
    (∀ v : Fin 256, v.val ∈ ramSizeBytes ∨
      parse_ram_size v.val =
        .error (.msg ("unsupported ram size: " ++ hexStr v.val))) ∧
    (∀ v : Fin 256, v.val ∈ destCodeBytes ∨
      parse_destination_code v.val =
        .error (.msg ("unsupported destination code: " ++ hexStr v.val))) := by
  refine ⟨⟨rfl, rfl, rfl⟩, ⟨rfl, rfl⟩, ⟨rfl, rfl⟩,
    ⟨rfl, rfl, rfl, rfl, rfl, rfl, rfl, rfl, rfl, rfl, rfl, rfl, rfl, rfl, rfl⟩,
    ⟨rfl, rfl, rfl, rfl, rfl, rfl⟩, ?_, ?_, ?_, ?_, ?_⟩
  · intro v
    by_cases hm : v.val ∈ gbcFlagBytes
    · exact Or.inl hm
    · exact Or.inr (gbc_flag_unlisted v.val hm)
  · intro v
    by_cases hm : v.val ∈ sgbFlagBytes
    · exact Or.inl hm
    · exact Or.inr (sgb_flag_unlisted v.val hm)
  · intro v
    by_cases hm : v.val ∈ romSizeBytes
    · exact Or.inl hm
    · exact Or.inr (rom_size_unlisted v.val hm)
  · intro v
    by_cases hm : v.val ∈ ramSizeBytes
    · exact Or.inl hm
    · exact Or.inr (ram_size_unlisted v.val hm)
  · intro v
    by_cases hm : v.val ∈ destCodeBytes
    · exact Or.inl hm
    · exact Or.inr (dest_code_unlisted v.val hm)

/-- C6: the new-style licensee decoder maps the ASCII pairs "01", "08",
"B2", "AF", "00" to Nintendo, Capcom, Bandai, Namco and None respectively,
the old-style decoder maps bytes 0x01, 0x08, 0xB2, 0xAF, 0x00 to the same
variants, and every other input decodes to `Unknown`; both decoders are
total functions into `LicenseeCode`, so neither can return an error. -/
theorem c6_licensee_tables :
    (parse_new_licensee_code (0x30, 0x31) = .Nintendo ∧
      parse_new_licensee_code (0x30, 0x38) = .Capcom ∧
      parse_new_licensee_code (0x42, 0x32) = .Bandai ∧
      parse_new_licensee_code (0x41, 0x46) = .Namco ∧
      parse_new_licensee_code (0x30, 0x30) = .None) ∧
    (parse_old_licensee_code 0x01 = .Nintendo ∧
      parse_old_licensee_code 0x08 = .Capcom ∧
      parse_old_licensee_code 0xB2 = .Bandai ∧
      parse_old_licensee_code 0xAF = .Namco ∧
      parse_old_licensee_code 0x00 = .None) ∧
    (∀ a b : Fin 256, (a.val, b.val) ∈ newLicenseeBytes ∨
      parse_new_licensee_code (a.val, b.val) = .Unknown) ∧
    (∀ c : Fin 256, c.val ∈ oldLicenseeBytes ∨
      parse_old_licensee_code c.val = .Unknown) := by
  refine ⟨⟨rfl, rfl, rfl, rfl, rfl⟩, ⟨rfl, rfl, rfl, rfl, rfl⟩, ?_, ?_⟩
  · intro a b
    by_cases hm : (a.val, b.val) ∈ newLicenseeBytes
    · exact Or.inl hm
    · exact Or.inr (new_licensee_unlisted a.val b.val hm)
  · intro c
    by_cases hm : c.val ∈ oldLicenseeBytes
    · exact Or.inl hm
    · exact Or.inr (old_licensee_unlisted c.val hm)

/-- C5: the all-zero 32 KiB buffer decodes successfully to a header with
GBOnly, NoSGB, ROMOnly, NoBanking, no RAM, Japanese destination and an
empty game title, and to exactly 2 program banks whose sizes sum to
32768 minus the 336-byte header region. -/
theorem c5_zero_image :
    ∃ gb, load zeroRom = .ok gb ∧
      gb.header.gbc_flag = .GBOnly ∧ gb.header.sgb_flag = .NoSGB ∧
      gb.header.cartridge_type = .ROMOnly ∧ gb.header.rom_size = .NoBanking ∧
      gb.header.ram_size = .None ∧ gb.header.destination_code = .Japanese ∧
      gb.header.game_title = [] ∧ gb.bank_data.length = 2 ∧
      (gb.bank_data.map List.length).sum = 32768 - 336 := by
  refine ⟨⟨zeroHeader, [List.replicate 16384 0, List.replicate 16048 0]⟩,
    load_zeroRom, rfl, rfl, rfl, rfl, rfl, rfl, rfl, rfl, ?_⟩
  show ([List.replicate 16384 (0 : Nat), List.replicate 16048 0].map List.length).sum = _
  rw [zero_banks_lengths]
  norm_num

/-- C10: `DataReader.skip` performs no bounds check — for every reader state
and every `n` it succeeds and sets the cursor to the old offset plus `n`,
even past the end of the buffer; an out-of-bounds fault happens only at a
read, exactly when the byte it wants lies outside the buffer. -/
theorem c10_skip_unchecked :
    (∀ (r : DataReader) (n : Nat), r.skip n = ⟨r.data, r.offset + n⟩) ∧
    (∀ r : DataReader, read_u8 r = .error .fault ↔ r.data.length ≤ r.offset) := by
  constructor
  · intro r n
    rfl
  · intro r
    constructor
    · intro hf
      by_contra hlt
      push_neg at hlt
      unfold read_u8 at hf
      rw [List.getElem?_eq_getElem hlt] at hf
      exact absurd hf (by simp)
    · intro hle
      unfold read_u8
      rw [List.getElem?_eq_none hle]

/-- C1, counterexample: on the all-zero 32 KiB image the bank sizes are
`[16384, 16048]` — the FIRST bank has the full `BANK_BYTES` size and the
LAST bank is the one shortened by `DATA_START`, contradicting the claim
that bank 0 has size `BANK_BYTES - DATA_START` and all later banks are
full-sized. -/
theorem c1_counterexample :
    (load zeroRom).map (fun gb => gb.bank_data.map List.length) =
      .ok [16384, 16048] ∧
    BANK_BYTES - DATA_START = 16048 ∧ (16384 : Nat) ≠ 16048 := by
  refine ⟨?_, rfl, by norm_num⟩
  rw [load_zeroRom]
  show Except.ok ([List.replicate 16384 (0 : Nat),
    List.replicate 16048 0].map List.length) = _
  rw [zero_banks_lengths]

/-- C1, amended: for every buffer that decodes successfully, `load`
partitions the post-header bytes into exactly the bank count given by the
ROM size's `num_banks` table entry, where every bank except the LAST has
the full size `BANK_BYTES` and the last bank has size
`BANK_BYTES - DATA_START` (the 336-byte header/vector region is taken out
of the final bank, not out of bank 0). -/
theorem c1_bank_partition {data : List Nat} {gb : GBBinary}
    (h : load data = .ok gb) :
    gb.bank_data.length = num_banks gb.header.rom_size ∧
    gb.bank_data.map List.length =
      List.replicate (num_banks gb.header.rom_size - 1) BANK_BYTES ++
        [BANK_BYTES - DATA_START] := by
  obtain ⟨hd, r1, banks, r2, h1, h2, rfl⟩ := load_ok_inv h
  have hshape : banks.map List.length = loopSizes (num_banks hd.rom_size) :=
    bankLoop_ok_shape h2
  constructor
  · have hlen := congrArg List.length hshape
    rw [List.length_map, loopSizes_length] at hlen
    exact hlen
  · rw [hshape, loopSizes_eq _ (num_banks_pos hd.rom_size)]

/-- C1, witness: the amended theorem applied to the all-zero 32 KiB image. -/
theorem c1_bank_partition_witness :
    (⟨zeroHeader, [List.replicate 16384 0, List.replicate 16048 0]⟩ :
        GBBinary).bank_data.length =
      num_banks (⟨zeroHeader, [List.replicate 16384 0, List.replicate 16048 0]⟩ :
        GBBinary).header.rom_size ∧
    (⟨zeroHeader, [List.replicate 16384 0, List.replicate 16048 0]⟩ :
        GBBinary).bank_data.map List.length =
      List.replicate (num_banks (⟨zeroHeader,
          [List.replicate 16384 0, List.replicate 16048 0]⟩ :
        GBBinary).header.rom_size - 1) BANK_BYTES ++
        [BANK_BYTES - DATA_START] :=
  c1_bank_partition load_zeroRom

/-- C4: for every buffer whose header parse succeeds, if the byte at
absolute offset 0x14B is the sentinel 0x33 then the game title is decoded
from exactly the 11 bytes at 0x134 and the manufacturer code from the 4
bytes that follow; for any other value of that byte the title is decoded
from exactly the 15 bytes at 0x134 and the manufacturer code is empty; in
both cases the reader ends the header at the same offset 0x150, so all
subsequent fields sit at the same offsets. -/
theorem c4_conditional_layout {d : List Nat} {hd : Header} {r' : DataReader}
    (hp : parse_header ⟨d, 0x100⟩ = .ok (hd, r')) :
    r'.offset = 0x150 ∧
    (d[0x14B]? = some 0x33 →
      hd.game_title = clean_string (utf8Lossy ((d.drop 0x134).take 11)) ∧
      hd.manufacturer_code = clean_string (utf8Lossy ((d.drop 0x13F).take 4))) ∧
    (∀ v, d[0x14B]? = some v → v ≠ 0x33 →
      hd.game_title = clean_string (utf8Lossy ((d.drop 0x134).take 15)) ∧
      hd.manufacturer_code = []) := by
  obtain ⟨-, hoff, olc, holc, hcases⟩ := parse_header_ok_char hp
  refine ⟨hoff, ?_, ?_⟩
  · intro h33
    have holc33 : olc = 0x33 := Option.some.inj (holc.symm.trans h33)
    rcases hcases with ⟨-, ht, hm⟩ | ⟨hne, -, -⟩
    · exact ⟨ht, hm⟩
    · exact absurd holc33 hne
  · intro v hv hnev
    have holcv : olc = v := Option.some.inj (holc.symm.trans hv)
    rcases hcases with ⟨heq, -, -⟩ | ⟨-, ht, hm⟩
    · subst holcv
      exact absurd heq hnev
    · exact ⟨ht, hm⟩

/-- C4, witness: the layout theorem applied to the all-zero image, whose
old-licensee byte is 0x00 (not the sentinel), so the title is the 15-byte
field and the manufacturer code is empty. -/
theorem c4_conditional_layout_witness :
    (⟨zeroRom, 0x150⟩ : DataReader).offset = 0x150 ∧
    zeroHeader.game_title =
      clean_string (utf8Lossy ((zeroRom.drop 0x134).take 15)) ∧
    zeroHeader.manufacturer_code = [] :=
  let h := c4_conditional_layout parse_header_zeroRom
  ⟨h.1, h.2.2 0 (zeroRom_getElem (by norm_num)) (by norm_num)⟩

/-- C7: for every buffer whose header parse succeeds, the decoded game
title and manufacturer code contain no null character (all 0x00 bytes of
the raw fields are removed), and the concrete 15-byte raw title field
"ZELDA" + 10 null bytes decodes to exactly "ZELDA". -/
theorem c7_null_stripping {d : List Nat} {hd : Header} {r' : DataReader}
    (hp : parse_header ⟨d, 0x100⟩ = .ok (hd, r')) :
    (0 : Nat) ∉ hd.game_title ∧ (0 : Nat) ∉ hd.manufacturer_code ∧
    clean_string (utf8Lossy
        [0x5A, 0x45, 0x4C, 0x44, 0x41, 0, 0, 0, 0, 0, 0, 0, 0, 0, 0]) =
      [0x5A, 0x45, 0x4C, 0x44, 0x41] := by
  obtain ⟨-, -, olc, -, hcases⟩ := parse_header_ok_char hp
  have hclean : ∀ s : List Nat, (0 : Nat) ∉ clean_string s := by
    intro s hmem
    simp [clean_string, List.mem_filter] at hmem
  refine ⟨?_, ?_, by decide⟩
  · rcases hcases with ⟨-, ht, -⟩ | ⟨-, ht, -⟩ <;> rw [ht] <;> exact hclean _
  · rcases hcases with ⟨-, -, hm⟩ | ⟨-, -, hm⟩
    · rw [hm]
      exact hclean _
    · rw [hm]
      simp

/-- C7, witness: the null-stripping theorem applied to the all-zero
image. -/
theorem c7_null_stripping_witness :
    (0 : Nat) ∉ zeroHeader.game_title ∧
    (0 : Nat) ∉ zeroHeader.manufacturer_code ∧
    clean_string (utf8Lossy
        [0x5A, 0x45, 0x4C, 0x44, 0x41, 0, 0, 0, 0, 0, 0, 0, 0, 0, 0]) =
      [0x5A, 0x45, 0x4C, 0x44, 0x41] :=
  c7_null_stripping parse_header_zeroRom

/-! ### C8: the reader operations as a little operation language -/

/-- One `DataReader` method call, as in src/reader.rs. -/
inductive ReaderOp where
  | opReadU8
  | opReadU16
  | opReadU32
  | opReadU64
  | opReadI16
  | opReadI32
  | opReadBool
  | opReadString (n : Nat)
  | opSkip (n : Nat)
  | opReadU8At (k : Nat)
  | opSlice (s e : Nat)
  | opUnreadBytes
  | opOffset
deriving DecidableEq

/-- The four operations that take `&self` in src/reader.rs (random access,
slicing, the unread-bytes view and the offset getter). -/
def ReaderOp.isRandomAccess : ReaderOp → Bool
  | .opReadU8At _ => true
  | .opSlice _ _ => true
  | .opUnreadBytes => true
  | .opOffset => true
  | _ => false

/-- Run one reader method, keeping only the reader state it leaves behind
(for a `&self` method that is the unchanged receiver). -/
def applyOp : ReaderOp → DataReader → Except Err DataReader
  | .opReadU8, r => (read_u8 r).map Prod.snd
  | .opReadU16, r => (read_u16 r).map Prod.snd
  | .opReadU32, r => (read_u32 r).map Prod.snd
  | .opReadU64, r => (read_u64 r).map Prod.snd
  | .opReadI16, r => (read_i16 r).map Prod.snd
  | .opReadI32, r => (read_i32 r).map Prod.snd
  | .opReadBool, r => (read_bool r).map Prod.snd
  | .opReadString n, r => (read_utf8_string r n).map Prod.snd
  | .opSkip n, r => .ok (r.skip n)
  | .opReadU8At k, r => (read_u8_at r k).map (fun _ => r)
  | .opSlice s e, r => (slice r s e).map (fun _ => r)
  | .opUnreadBytes, r => (unread_bytes r).map (fun _ => r)
  | .opOffset, r => .ok r

/-- Run a sequence of reader method calls. -/
def runOps : List ReaderOp → DataReader → Except Err DataReader
  | [], r => .ok r
  | op :: ops, r => applyOp op r >>= runOps ops

theorem mapSnd_ok {α : Type} {x : Except Err (α × DataReader)}
    {r' : DataReader} (h : x.map Prod.snd = .ok r') :
    ∃ v, x = .ok (v, r') := by
  rw [map_eq_ok] at h
  obtain ⟨⟨v, r2⟩, h1, h2⟩ := h
  dsimp only at h2
  subst h2
  exact ⟨v, h1⟩

theorem applyOp_mono (op : ReaderOp) (r r' : DataReader)
    (h : applyOp op r = .ok r') : r.offset ≤ r'.offset := by
  cases op with
  | opReadU8 =>
    obtain ⟨v, hx⟩ := mapSnd_ok h
    rw [read_u8_eq_ok] at hx
    obtain ⟨-, rfl⟩ := hx
    exact Nat.le_succ _
  | opReadU16 =>
    obtain ⟨v, hx⟩ := mapSnd_ok h
    rw [show read_u16 r = read_le r 2 from rfl, read_le_eq_ok] at hx
    obtain ⟨-, -, rfl⟩ := hx
    exact Nat.le_add_right _ _
  | opReadU32 =>
    obtain ⟨v, hx⟩ := mapSnd_ok h
    rw [show read_u32 r = read_le r 4 from rfl, read_le_eq_ok] at hx
    obtain ⟨-, -, rfl⟩ := hx
    exact Nat.le_add_right _ _
  | opReadU64 =>
    obtain ⟨v, hx⟩ := mapSnd_ok h
    rw [show read_u64 r = read_le r 8 from rfl, read_le_eq_ok] at hx
    obtain ⟨-, -, rfl⟩ := hx
    exact Nat.le_add_right _ _
  | opReadI16 =>
    obtain ⟨v, hx⟩ := mapSnd_ok h
    unfold read_i16 at hx
    rw [map_eq_ok] at hx
    obtain ⟨⟨w, r2⟩, h1, h2⟩ := hx
    rw [read_le_eq_ok] at h1
    obtain ⟨-, -, rfl⟩ := h1
    simp only [Prod.mk.injEq] at h2
    obtain ⟨-, rfl⟩ := h2
    exact Nat.le_add_right _ _
  | opReadI32 =>
    obtain ⟨v, hx⟩ := mapSnd_ok h
    unfold read_i32 at hx
    rw [map_eq_ok] at hx
    obtain ⟨⟨w, r2⟩, h1, h2⟩ := hx
    rw [read_le_eq_ok] at h1
    obtain ⟨-, -, rfl⟩ := h1
    simp only [Prod.mk.injEq] at h2
    obtain ⟨-, rfl⟩ := h2
    exact Nat.le_add_right _ _
  | opReadBool =>
    obtain ⟨v, hx⟩ := mapSnd_ok h
    unfold read_bool at hx
    rw [map_eq_ok] at hx
    obtain ⟨⟨w, r2⟩, h1, h2⟩ := hx
    rw [show read_u16 r = read_le r 2 from rfl, read_le_eq_ok] at h1
    obtain ⟨-, -, rfl⟩ := h1
    simp only [Prod.mk.injEq] at h2
    obtain ⟨-, rfl⟩ := h2
    exact Nat.le_add_right _ _
  | opReadString n =>
    obtain ⟨v, hx⟩ := mapSnd_ok h
    rw [read_utf8_string_eq_ok] at hx
    obtain ⟨-, -, rfl⟩ := hx
    exact Nat.le_add_right _ _
  | opSkip n =>
    simp only [applyOp, Except.ok.injEq] at h
    subst h
    exact Nat.le_add_right _ _
  | opReadU8At k =>
    simp only [applyOp] at h
    rw [map_eq_ok] at h
    obtain ⟨-, -, rfl⟩ := h
    exact le_refl _
  | opSlice s e =>
    simp only [applyOp] at h
    rw [map_eq_ok] at h
    obtain ⟨-, -, rfl⟩ := h
    exact le_refl _
  | opUnreadBytes =>
    simp only [applyOp] at h
    rw [map_eq_ok] at h
    obtain ⟨-, -, rfl⟩ := h
    exact le_refl _
  | opOffset =>
    simp only [applyOp, Except.ok.injEq] at h
    subst h
    exact le_refl _

theorem applyOp_random_access (op : ReaderOp) (r r' : DataReader)
    (hra : op.isRandomAccess = true) (h : applyOp op r = .ok r') :
    r' = r := by
  cases op <;>
    simp only [ReaderOp.isRandomAccess, Bool.false_eq_true] at hra <;>
    simp only [applyOp, Except.ok.injEq] at h
  · rw [map_eq_ok] at h
    obtain ⟨-, -, rfl⟩ := h
    rfl
  · rw [map_eq_ok] at h
    obtain ⟨-, -, rfl⟩ := h
    rfl
  · rw [map_eq_ok] at h
    obtain ⟨-, -, rfl⟩ := h
    rfl
  · exact h.symm

/-- C8: over every sequence of reader operations the cursor offset is
monotonically non-decreasing — each successful sequential read or skip
leaves the offset at least where it was — and every random-access
operation (`read_u8_at`, `slice`, `unread_bytes`, `offset`) leaves the
reader, and in particular its offset, unchanged. -/
theorem c8_cursor_monotone :
    (∀ (op : ReaderOp) (r r' : DataReader),
      applyOp op r = .ok r' → r.offset ≤ r'.offset) ∧
    (∀ (ops : List ReaderOp) (r r' : DataReader),
      runOps ops r = .ok r' → r.offset ≤ r'.offset) ∧
    (∀ (op : ReaderOp) (r r' : DataReader), op.isRandomAccess = true →
      applyOp op r = .ok r' → r'.offset = r.offset) := by
  refine ⟨applyOp_mono, ?_, ?_⟩
  · intro ops
    induction ops with
    | nil =>
      intro r r' h
      simp only [runOps, Except.ok.injEq] at h
      subst h
      exact le_refl _
    | cons op ops ih =>
      intro r r' h
      simp only [runOps, bind_eq_ok] at h
      obtain ⟨r1, h1, h2⟩ := h
      exact le_trans (applyOp_mono op r r1 h1) (ih r1 r' h2)
  · intro op r r' hra h
    rw [applyOp_random_access op r r' hra h]

/-- C8, witness: a concrete skip advances the cursor from 0 to 5, and a
concrete random-access read at offset 1 leaves the cursor at 1. -/
theorem c8_cursor_monotone_witness :
    (⟨[7, 8], 0⟩ : DataReader).offset ≤ (⟨[7, 8], 5⟩ : DataReader).offset ∧
    (⟨[7, 8], 1⟩ : DataReader).offset = (⟨[7, 8], 1⟩ : DataReader).offset := by
  constructor
  · exact c8_cursor_monotone.2.1 [.opSkip 5] ⟨[7, 8], 0⟩ ⟨[7, 8], 5⟩ rfl
  · exact c8_cursor_monotone.2.2 (.opReadU8At 0) ⟨[7, 8], 1⟩ ⟨[7, 8], 1⟩ rfl rfl

/-! ### C9: bytes in the skipped regions never influence `load` -/

theorem read_u8_congr {d1 d2 : List Nat} {off : Nat}
    (h : d1[off]? = d2[off]?) :
    read_u8 ⟨d1, off⟩ =
      Except.map (Prod.map id (fun r : DataReader => (⟨d1, r.offset⟩ : DataReader)))
        (read_u8 ⟨d2, off⟩) := by
  unfold read_u8
  dsimp only
  rw [h]
  cases d2[off]? <;> rfl

theorem read_u8_at_congr {d1 d2 : List Nat} {k : Nat}
    (h : d1[k]? = d2[k]?) {o : Nat} :
    read_u8_at ⟨d1, o⟩ k = read_u8_at ⟨d2, o⟩ k := by
  unfold read_u8_at
  dsimp only
  rw [h]

theorem read_utf8_string_congr {d1 d2 : List Nat} {off n : Nat}
    (hlen : d1.length = d2.length)
    (hs : (d1.drop off).take n = (d2.drop off).take n) :
    read_utf8_string ⟨d1, off⟩ n =
      Except.map (Prod.map id (fun r : DataReader => (⟨d1, r.offset⟩ : DataReader)))
        (read_utf8_string ⟨d2, off⟩ n) := by
  unfold read_utf8_string
  dsimp only
  rw [hs, hlen]
  split <;> rfl

theorem read_u16_congr {d1 d2 : List Nat} {off : Nat}
    (hlen : d1.length = d2.length)
    (hs : (d1.drop off).take 2 = (d2.drop off).take 2) :
    read_u16 ⟨d1, off⟩ =
      Except.map (Prod.map id (fun r : DataReader => (⟨d1, r.offset⟩ : DataReader)))
        (read_u16 ⟨d2, off⟩) := by
  unfold read_u16 read_le
  dsimp only
  rw [hs, hlen]
  split <;> rfl

theorem sliceEq {d1 d2 : List Nat}
    (_hlen : d1.length = d2.length)
    (hagOK : ∀ i, (0x100 ≤ i ∧ i ≤ 0x103) ∨ 0x134 ≤ i → d1[i]? = d2[i]?)
    (a k : Nat) (ha : 0x134 ≤ a) :
    (d1.drop a).take k = (d2.drop a).take k := by
  apply List.ext_getElem?
  intro n
  rw [List.getElem?_take, List.getElem?_take, List.getElem?_drop,
    List.getElem?_drop]
  split
  · exact hagOK (a + n) (Or.inr (by omega))
  · rfl

theorem readBytes_congr {d1 d2 : List Nat}
    (hagOK : ∀ i, (0x100 ≤ i ∧ i ≤ 0x103) ∨ 0x134 ≤ i → d1[i]? = d2[i]?) :
    ∀ (k off : Nat), 0x134 ≤ off →
    readBytes k ⟨d1, off⟩ =
      Except.map (Prod.map id (fun r : DataReader => (⟨d1, r.offset⟩ : DataReader)))
        (readBytes k ⟨d2, off⟩) := by
  intro k
  induction k with
  | zero =>
    intro off hoff
    rfl
  | succ n ih =>
    intro off hoff
    simp only [readBytes]
    rw [read_u8_congr (hagOK off (Or.inr hoff))]
    cases h1 : read_u8 ⟨d2, off⟩ with
    | error e => rfl
    | ok p =>
      obtain ⟨v, r⟩ := p
      rw [read_u8_eq_ok] at h1
      obtain ⟨hb1, rfl⟩ := h1
      simp only [Except.map, Prod.map, id, ok_bind]
      rw [ih (off + 1) (by omega)]
      cases h2 : readBytes n ⟨d2, off + 1⟩ with
      | error e => rfl
      | ok q =>
        obtain ⟨bs, r2⟩ := q
        simp only [Except.map, Prod.map, id, ok_bind]

theorem bankLoop_congr {d1 d2 : List Nat}
    (hagOK : ∀ i, (0x100 ≤ i ∧ i ≤ 0x103) ∨ 0x134 ≤ i → d1[i]? = d2[i]?) :
    ∀ (left off : Nat), 0x134 ≤ off →
    bankLoop left ⟨d1, off⟩ =
      Except.map (Prod.map id (fun r : DataReader => (⟨d1, r.offset⟩ : DataReader)))
        (bankLoop left ⟨d2, off⟩) := by
  intro left
  induction left with
  | zero =>
    intro off hoff
    rfl
  | succ n ih =>
    intro off hoff
    simp only [bankLoop]
    rw [readBytes_congr hagOK _ off hoff]
    cases h1 : readBytes (if n = 0 then BANK_BYTES - DATA_START else BANK_BYTES)
        ⟨d2, off⟩ with
    | error e => rfl
    | ok p =>
      obtain ⟨bank, r⟩ := p
      obtain ⟨-, hrdata, hroff⟩ := readBytes_ok_shape h1
      obtain ⟨rd, ro⟩ := r
      dsimp only at hrdata hroff
      subst rd
      subst ro
      simp only [Except.map, Prod.map, id, ok_bind]
      rw [ih (off + (if n = 0 then BANK_BYTES - DATA_START else BANK_BYTES))
        (le_trans hoff (Nat.le_add_right _ _))]
      cases h2 : bankLoop n (⟨d2, off +
          (if n = 0 then BANK_BYTES - DATA_START else BANK_BYTES)⟩ : DataReader) with
      | error e => rfl
      | ok q =>
        obtain ⟨rest, r2⟩ := q
        simp only [Except.map, Prod.map, id, ok_bind]

theorem parse_header_congr {d1 d2 : List Nat}
    (hlen : d1.length = d2.length)
    (hagOK : ∀ i, (0x100 ≤ i ∧ i ≤ 0x103) ∨ 0x134 ≤ i → d1[i]? = d2[i]?) :
    parse_header ⟨d1, 0x100⟩ =
      Except.map (Prod.map id (fun r : DataReader => (⟨d1, r.offset⟩ : DataReader)))
        (parse_header ⟨d2, 0x100⟩) := by
  unfold parse_header
  try norm_num only
  rw [read_u8_congr (hagOK 256 (by omega))]
  cases h1 : read_u8 ⟨d2, 256⟩ with
  | error e => rfl
  | ok p1 =>
    obtain ⟨v1, r1⟩ := p1
    rw [read_u8_eq_ok] at h1
    obtain ⟨hb1, rfl⟩ := h1
    simp only [Except.map, Prod.map, id, ok_bind, pure_bind, DataReader.skip]
    try norm_num only
    rw [read_u8_congr (hagOK 257 (by omega))]
    cases h2 : read_u8 ⟨d2, 257⟩ with
    | error e => rfl
    | ok p2 =>
      obtain ⟨v2, r2⟩ := p2
      rw [read_u8_eq_ok] at h2
      obtain ⟨hb2, rfl⟩ := h2
      simp only [Except.map, Prod.map, id, ok_bind, pure_bind, DataReader.skip]
      try norm_num only
      rw [read_u8_congr (hagOK 258 (by omega))]
      cases h3 : read_u8 ⟨d2, 258⟩ with
      | error e => rfl
      | ok p3 =>
        obtain ⟨v3, r3⟩ := p3
        rw [read_u8_eq_ok] at h3
        obtain ⟨hb3, rfl⟩ := h3
        simp only [Except.map, Prod.map, id, ok_bind, pure_bind, DataReader.skip]
        try norm_num only
        rw [read_u8_congr (hagOK 259 (by omega))]
        cases h4 : read_u8 ⟨d2, 259⟩ with
        | error e => rfl
        | ok p4 =>
          obtain ⟨v4, r4⟩ := p4
          rw [read_u8_eq_ok] at h4
          obtain ⟨hb4, rfl⟩ := h4
          simp only [Except.map, Prod.map, id, ok_bind, pure_bind, DataReader.skip]
          try norm_num only
          rw [read_u8_at_congr (hagOK 331 (by omega))]
          cases hOlc : read_u8_at ⟨d2, 308⟩ 331 with
          | error e => rfl
          | ok olc =>
            simp only [Except.map, ok_bind]
            by_cases holc : olc = NEW_LICENCSEE_CODE_VAL
            case pos =>
              simp only [if_pos holc]
              try norm_num only
              rw [read_utf8_string_congr hlen (sliceEq hlen hagOK 308 11 (by omega))]
              cases hT1 : read_utf8_string ⟨d2, 308⟩ 11 with
              | error e => rfl
              | ok pT1 =>
                obtain ⟨sT1, rT1⟩ := pT1
                rw [read_utf8_string_eq_ok] at hT1
                obtain ⟨hlT1, rfl, rfl⟩ := hT1
                simp only [Except.map, Prod.map, id, ok_bind, pure_bind, DataReader.skip]
                try norm_num only
                rw [read_utf8_string_congr hlen (sliceEq hlen hagOK 319 4 (by omega))]
                cases hT2 : read_utf8_string ⟨d2, 319⟩ 4 with
                | error e => rfl
                | ok pT2 =>
                  obtain ⟨sT2, rT2⟩ := pT2
                  rw [read_utf8_string_eq_ok] at hT2
                  obtain ⟨hlT2, rfl, rfl⟩ := hT2
                  simp only [Except.map, Prod.map, id, ok_bind, pure_bind, DataReader.skip]
                  try norm_num only
                  rw [read_u8_congr (hagOK 323 (by omega))]
                  cases h6 : read_u8 ⟨d2, 323⟩ with
                  | error e => rfl
                  | ok p6 =>
                    obtain ⟨v6, r6⟩ := p6
                    rw [read_u8_eq_ok] at h6
                    obtain ⟨hb6, rfl⟩ := h6
                    simp only [Except.map, Prod.map, id, ok_bind, pure_bind, DataReader.skip]
                    cases hG : parse_gbc_flag v6 with
                    | error e => rfl
                    | ok gG =>
                      simp only [Except.map, ok_bind, DataReader.skip]
                      try norm_num only
                      rw [read_u8_congr (hagOK 324 (by omega))]
                      cases h7 : read_u8 ⟨d2, 324⟩ with
                      | error e => rfl
                      | ok p7 =>
                        obtain ⟨v7, r7⟩ := p7
                        rw [read_u8_eq_ok] at h7
                        obtain ⟨hb7, rfl⟩ := h7
                        simp only [Except.map, Prod.map, id, ok_bind, pure_bind, DataReader.skip]
                        try norm_num only
                        rw [read_u8_congr (hagOK 325 (by omega))]
                        cases h8 : read_u8 ⟨d2, 325⟩ with
                        | error e => rfl
                        | ok p8 =>
                          obtain ⟨v8, r8⟩ := p8
                          rw [read_u8_eq_ok] at h8
                          obtain ⟨hb8, rfl⟩ := h8
                          simp only [Except.map, Prod.map, id, ok_bind, pure_bind, DataReader.skip]
                          try norm_num only
                          rw [read_u8_congr (hagOK 326 (by omega))]
                          cases h9 : read_u8 ⟨d2, 326⟩ with
                          | error e => rfl
                          | ok p9 =>
                            obtain ⟨v9, r9⟩ := p9
                            rw [read_u8_eq_ok] at h9
                            obtain ⟨hb9, rfl⟩ := h9
                            simp only [Except.map, Prod.map, id, ok_bind, pure_bind, DataReader.skip]
                            cases hS : parse_sgb_flag v9 with
                            | error e => rfl
                            | ok gS =>
                              simp only [Except.map, ok_bind, DataReader.skip]
                              try norm_num only
                              rw [read_u8_congr (hagOK 327 (by omega))]
                              cases h10 : read_u8 ⟨d2, 327⟩ with
                              | error e => rfl
                              | ok p10 =>
                                obtain ⟨v10, r10⟩ := p10
                                rw [read_u8_eq_ok] at h10
                                obtain ⟨hb10, rfl⟩ := h10
                                simp only [Except.map, Prod.map, id, ok_bind, pure_bind, DataReader.skip]
                                cases hC : parse_cartridge_type v10 with
                                | error e => rfl
                                | ok gC =>
                                  simp only [Except.map, ok_bind, DataReader.skip]
                                  try norm_num only
                                  rw [read_u8_congr (hagOK 328 (by omega))]
                                  cases h11 : read_u8 ⟨d2, 328⟩ with
                                  | error e => rfl
                                  | ok p11 =>
                                    obtain ⟨v11, r11⟩ := p11
                                    rw [read_u8_eq_ok] at h11
                                    obtain ⟨hb11, rfl⟩ := h11
                                    simp only [Except.map, Prod.map, id, ok_bind, pure_bind, DataReader.skip]
                                    cases hR : parse_rom_size v11 with
                                    | error e => rfl
                                    | ok gR =>
                                      simp only [Except.map, ok_bind, DataReader.skip]
                                      try norm_num only
                                      rw [read_u8_congr (hagOK 329 (by omega))]
                                      cases h12 : read_u8 ⟨d2, 329⟩ with
                                      | error e => rfl
                                      | ok p12 =>
                                        obtain ⟨v12, r12⟩ := p12
                                        rw [read_u8_eq_ok] at h12
                                        obtain ⟨hb12, rfl⟩ := h12
                                        simp only [Except.map, Prod.map, id, ok_bind, pure_bind, DataReader.skip]
                                        cases hM : parse_ram_size v12 with
                                        | error e => rfl
                                        | ok gM =>
                                          simp only [Except.map, ok_bind, DataReader.skip]
                                          try norm_num only
                                          rw [read_u8_congr (hagOK 330 (by omega))]
                                          cases h13 : read_u8 ⟨d2, 330⟩ with
                                          | error e => rfl
                                          | ok p13 =>
                                            obtain ⟨v13, r13⟩ := p13
                                            rw [read_u8_eq_ok] at h13
                                            obtain ⟨hb13, rfl⟩ := h13
                                            simp only [Except.map, Prod.map, id, ok_bind, pure_bind, DataReader.skip]
                                            cases hD : parse_destination_code v13 with
                                            | error e => rfl
                                            | ok gD =>
                                              simp only [Except.map, ok_bind, DataReader.skip]
                                              try norm_num only
                                              rw [read_u8_congr (hagOK 332 (by omega))]
                                              cases h14 : read_u8 ⟨d2, 332⟩ with
                                              | error e => rfl
                                              | ok p14 =>
                                                obtain ⟨v14, r14⟩ := p14
                                                rw [read_u8_eq_ok] at h14
                                                obtain ⟨hb14, rfl⟩ := h14
                                                simp only [Except.map, Prod.map, id, ok_bind, pure_bind, DataReader.skip]
                                                try norm_num only
                                                rw [read_u8_congr (hagOK 333 (by omega))]
                                                cases h15 : read_u8 ⟨d2, 333⟩ with
                                                | error e => rfl
                                                | ok p15 =>
                                                  obtain ⟨v15, r15⟩ := p15
                                                  rw [read_u8_eq_ok] at h15
                                                  obtain ⟨hb15, rfl⟩ := h15
                                                  simp only [Except.map, Prod.map, id, ok_bind, pure_bind, DataReader.skip]
                                                  try norm_num only
                                                  rw [read_u16_congr hlen (sliceEq hlen hagOK 334 2 (by omega))]
                                                  cases hU : read_u16 ⟨d2, 334⟩ with
                                                  | error e => rfl
                                                  | ok pU =>
                                                    obtain ⟨vU, rU⟩ := pU
                                                    rw [read_u16_eq_ok] at hU
                                                    obtain ⟨hlU, rfl, rfl⟩ := hU
                                                    simp only [Except.map, Prod.map, id, ok_bind, pure_bind, DataReader.skip]
            case neg =>
              simp only [if_neg holc]
              try norm_num only
              rw [read_utf8_string_congr hlen (sliceEq hlen hagOK 308 15 (by omega))]
              cases hT1 : read_utf8_string ⟨d2, 308⟩ 15 with
              | error e => rfl
              | ok pT1 =>
                obtain ⟨sT1, rT1⟩ := pT1
                rw [read_utf8_string_eq_ok] at hT1
                obtain ⟨hlT1, rfl, rfl⟩ := hT1
                simp only [Except.map, Prod.map, id, ok_bind, pure_bind, DataReader.skip]
                try norm_num only
                rw [read_u8_congr (hagOK 323 (by omega))]
                cases h6 : read_u8 ⟨d2, 323⟩ with
                | error e => rfl
                | ok p6 =>
                  obtain ⟨v6, r6⟩ := p6
                  rw [read_u8_eq_ok] at h6
                  obtain ⟨hb6, rfl⟩ := h6
                  simp only [Except.map, Prod.map, id, ok_bind, pure_bind, DataReader.skip]
                  cases hG : parse_gbc_flag v6 with
                  | error e => rfl
                  | ok gG =>
                    simp only [Except.map, ok_bind, DataReader.skip]
                    try norm_num only
                    rw [read_u8_congr (hagOK 324 (by omega))]
                    cases h7 : read_u8 ⟨d2, 324⟩ with
                    | error e => rfl
                    | ok p7 =>
                      obtain ⟨v7, r7⟩ := p7
                      rw [read_u8_eq_ok] at h7
                      obtain ⟨hb7, rfl⟩ := h7
                      simp only [Except.map, Prod.map, id, ok_bind, pure_bind, DataReader.skip]
                      try norm_num only
                      rw [read_u8_congr (hagOK 325 (by omega))]
                      cases h8 : read_u8 ⟨d2, 325⟩ with
                      | error e => rfl
                      | ok p8 =>
                        obtain ⟨v8, r8⟩ := p8
                        rw [read_u8_eq_ok] at h8
                        obtain ⟨hb8, rfl⟩ := h8
                        simp only [Except.map, Prod.map, id, ok_bind, pure_bind, DataReader.skip]
                        try norm_num only
                        rw [read_u8_congr (hagOK 326 (by omega))]
                        cases h9 : read_u8 ⟨d2, 326⟩ with
                        | error e => rfl
                        | ok p9 =>
                          obtain ⟨v9, r9⟩ := p9
                          rw [read_u8_eq_ok] at h9
                          obtain ⟨hb9, rfl⟩ := h9
                          simp only [Except.map, Prod.map, id, ok_bind, pure_bind, DataReader.skip]
                          cases hS : parse_sgb_flag v9 with
                          | error e => rfl
                          | ok gS =>
                            simp only [Except.map, ok_bind, DataReader.skip]
                            try norm_num only
                            rw [read_u8_congr (hagOK 327 (by omega))]
                            cases h10 : read_u8 ⟨d2, 327⟩ with
                            | error e => rfl
                            | ok p10 =>
                              obtain ⟨v10, r10⟩ := p10
                              rw [read_u8_eq_ok] at h10
                              obtain ⟨hb10, rfl⟩ := h10
                              simp only [Except.map, Prod.map, id, ok_bind, pure_bind, DataReader.skip]
                              cases hC : parse_cartridge_type v10 with
                              | error e => rfl
                              | ok gC =>
                                simp only [Except.map, ok_bind, DataReader.skip]
                                try norm_num only
                                rw [read_u8_congr (hagOK 328 (by omega))]
                                cases h11 : read_u8 ⟨d2, 328⟩ with
                                | error e => rfl
                                | ok p11 =>
                                  obtain ⟨v11, r11⟩ := p11
                                  rw [read_u8_eq_ok] at h11
                                  obtain ⟨hb11, rfl⟩ := h11
                                  simp only [Except.map, Prod.map, id, ok_bind, pure_bind, DataReader.skip]
                                  cases hR : parse_rom_size v11 with
                                  | error e => rfl
                                  | ok gR =>
                                    simp only [Except.map, ok_bind, DataReader.skip]
                                    try norm_num only
                                    rw [read_u8_congr (hagOK 329 (by omega))]
                                    cases h12 : read_u8 ⟨d2, 329⟩ with
                                    | error e => rfl
                                    | ok p12 =>
                                      obtain ⟨v12, r12⟩ := p12
                                      rw [read_u8_eq_ok] at h12
                                      obtain ⟨hb12, rfl⟩ := h12
                                      simp only [Except.map, Prod.map, id, ok_bind, pure_bind, DataReader.skip]
                                      cases hM : parse_ram_size v12 with
                                      | error e => rfl
                                      | ok gM =>
                                        simp only [Except.map, ok_bind, DataReader.skip]
                                        try norm_num only
                                        rw [read_u8_congr (hagOK 330 (by omega))]
                                        cases h13 : read_u8 ⟨d2, 330⟩ with
                                        | error e => rfl
                                        | ok p13 =>
                                          obtain ⟨v13, r13⟩ := p13
                                          rw [read_u8_eq_ok] at h13
                                          obtain ⟨hb13, rfl⟩ := h13
                                          simp only [Except.map, Prod.map, id, ok_bind, pure_bind, DataReader.skip]
                                          cases hD : parse_destination_code v13 with
                                          | error e => rfl
                                          | ok gD =>
                                            simp only [Except.map, ok_bind, DataReader.skip]
                                            try norm_num only
                                            rw [read_u8_congr (hagOK 332 (by omega))]
                                            cases h14 : read_u8 ⟨d2, 332⟩ with
                                            | error e => rfl
                                            | ok p14 =>
                                              obtain ⟨v14, r14⟩ := p14
                                              rw [read_u8_eq_ok] at h14
                                              obtain ⟨hb14, rfl⟩ := h14
                                              simp only [Except.map, Prod.map, id, ok_bind, pure_bind, DataReader.skip]
                                              try norm_num only
                                              rw [read_u8_congr (hagOK 333 (by omega))]
                                              cases h15 : read_u8 ⟨d2, 333⟩ with
                                              | error e => rfl
                                              | ok p15 =>
                                                obtain ⟨v15, r15⟩ := p15
                                                rw [read_u8_eq_ok] at h15
                                                obtain ⟨hb15, rfl⟩ := h15
                                                simp only [Except.map, Prod.map, id, ok_bind, pure_bind, DataReader.skip]
                                                try norm_num only
                                                rw [read_u16_congr hlen (sliceEq hlen hagOK 334 2 (by omega))]
                                                cases hU : read_u16 ⟨d2, 334⟩ with
                                                | error e => rfl
                                                | ok pU =>
                                                  obtain ⟨vU, rU⟩ := pU
                                                  rw [read_u16_eq_ok] at hU
                                                  obtain ⟨hlU, rfl, rfl⟩ := hU
                                                  simp only [Except.map, Prod.map, id, ok_bind, pure_bind, DataReader.skip]

/-- C9: two equal-length buffers that differ only inside the boot-vector
region (offsets 0x000-0x0FF) and/or the logo region (offsets 0x104-0x133)
produce identical `load` results — the same header, the same bank data, or
the same error; bytes in the skipped regions never influence the output. -/
theorem c9_skipped_regions {d1 d2 : List Nat}
    (hlen : d1.length = d2.length)
    (hag : ∀ i, ¬(i ≤ 0xFF ∨ (0x104 ≤ i ∧ i ≤ 0x133)) → d1[i]? = d2[i]?) :
    load d1 = load d2 := by
  have hagOK : ∀ i, (0x100 ≤ i ∧ i ≤ 0x103) ∨ 0x134 ≤ i → d1[i]? = d2[i]? :=
    fun i h => hag i (by omega)
  unfold load
  dsimp only []
  rw [show parse_vectors (DataReader.new d1) =
      .ok (⟨d1, 0x100⟩ : DataReader) from rfl,
    show parse_vectors (DataReader.new d2) =
      .ok (⟨d2, 0x100⟩ : DataReader) from rfl,
    ok_bind, ok_bind]
  rw [parse_header_congr hlen hagOK]
  cases hh : parse_header ⟨d2, 0x100⟩ with
  | error e => rfl
  | ok p =>
    obtain ⟨hd, r⟩ := p
    obtain ⟨hrdata, hroff, -⟩ := parse_header_ok_char hh
    obtain ⟨rd, ro⟩ := r
    dsimp only at hrdata hroff
    subst rd
    subst ro
    simp only [Except.map, Prod.map, id, ok_bind]
    rw [show parse_bank_data (⟨d1, 0x150⟩ : DataReader) hd.rom_size =
      bankLoop (num_banks hd.rom_size) ⟨d1, 0x150⟩ from rfl]
    rw [show parse_bank_data (⟨d2, 0x150⟩ : DataReader) hd.rom_size =
      bankLoop (num_banks hd.rom_size) ⟨d2, 0x150⟩ from rfl]
    rw [bankLoop_congr hagOK (num_banks hd.rom_size) 0x150 (by norm_num)]
    cases hbk : bankLoop (num_banks hd.rom_size) ⟨d2, 0x150⟩ with
    | error e => rfl
    | ok q =>
      obtain ⟨banks, r2⟩ := q
      simp only [Except.map, Prod.map, id, ok_bind]

/-- C9, witness: the all-zero 32 KiB image and the image that differs from
it only at offset 0 (inside the boot-vector region) decode identically. -/
theorem c9_skipped_regions_witness :
    load zeroRom = load (7 :: List.replicate 32767 0) := by
  apply c9_skipped_regions
  · rw [zeroRom_length, List.length_cons, List.length_replicate]
  · intro i hi
    obtain ⟨j, rfl⟩ : ∃ j, i = j + 1 := ⟨i - 1, by omega⟩
    rw [List.getElem?_cons_succ]
    unfold zeroRom
    rw [List.getElem?_replicate, List.getElem?_replicate]
    by_cases hj : j < 32767
    · rw [if_pos hj, if_pos (by omega)]
    · rw [if_neg hj, if_neg (by omega)]

/-- C2, witness: the amended theorem instantiated at byte 0x04, which is
outside the table and therefore errors. -/
theorem c2_cartridge_type_amended_witness :
    (4 : Nat) ∈ cartTypeBytes ∨
      parse_cartridge_type 4 =
        .error (.msg ("unsuported cartridge type: " ++ hexStr 4)) :=
  c2_cartridge_type_amended.2.2 ⟨4, by norm_num⟩

/-- C3, witness: the strict-enum theorem instantiated at GBC-flag byte
0x01, which is unlisted and therefore errors. -/
theorem c3_strict_enum_tables_witness :
    (1 : Nat) ∈ gbcFlagBytes ∨
      parse_gbc_flag 1 =
        .error (.msg ("unsupported GBC flag: " ++ hexStr 1)) :=
  (c3_strict_enum_tables.2.2.2.2.2.1) ⟨1, by norm_num⟩

/-- C6, witness: the licensee theorem instantiated at the unlisted 2-byte
pair (0, 0), which decodes to Unknown. -/
theorem c6_licensee_tables_witness :
    ((0 : Nat), (0 : Nat)) ∈ newLicenseeBytes ∨
      parse_new_licensee_code (0, 0) = .Unknown :=
  c6_licensee_tables.2.2.1 ⟨0, by norm_num⟩ ⟨0, by norm_num⟩

/-- C10, witness: the skip theorem instantiated at a reader over a 1-byte
buffer — skipping 3 from offset 2 lands at offset 5, past the end. -/
theorem c10_skip_unchecked_witness :
    (⟨[5], 2⟩ : DataReader).skip 3 = (⟨[5], 2 + 3⟩ : DataReader) ∧
    (read_u8 ⟨[5], 9⟩ = .error .fault ↔
      ([5] : List Nat).length ≤ 9) :=
  ⟨c10_skip_unchecked.1 ⟨[5], 2⟩ 3, c10_skip_unchecked.2 ⟨[5], 9⟩⟩

end GB
